import Mathlib

/-!
Sportsin chat subsystem: connection hub, session read loop, chat persistence

A shallow embedding of `backend/internals/chat/redis` (hub.go, client.go,
pub-sub.go, type.go), of the chat part of `backend/internals/handlers` and of
`backend/internals/db/repositories/chat_repository.go`, followed by the
properties established about them.

Conventions of the embedding.

* Go maps are total functions into `Option`.
* A Go panic is the `error` branch of `Except Panic`.
* Mutable parts of a session that are reached through the `*Client` pointer
  (the `Send` channel, the `Sub` handle) live in the state, keyed by the session.
* Values chosen by the environment (fresh identifiers, clock readings, failures
  of the store or of the bus) are explicit arguments.
-/

namespace Sportsin

/-! ## Definitions: internals/chat/redis (type.go, hub.go) -/

/-- Payload of a frame or of a bus message (a Go byte slice). -/
abbrev Bytes := String

/-- Session record `Client` of type.go. `ptr` stands for the address of the Go
struct: the registry stores pointers, and two sessions are the same session
exactly when they are the same pointer. `UserID` is the field of that name. The
fields `Send` and `Sub` are mutable and are kept in `Hub.Send` and `Hub.Sub`;
`Conn` and `Hub` play no part in the hub loop. -/
structure Client where
  ptr : Nat
  UserID : String
deriving DecidableEq

/-- State of a Go channel of payloads: what is buffered and whether `close` has
been executed on it. -/
structure Chan where
  buf : List Bytes
  closed : Bool
deriving DecidableEq

/-- Value of the field `Client.Sub`: the nil pointer it holds until
`listenToRedis` assigns it, an open subscription, or a subscription on which
`Close` has been called. -/
inductive PubSub where
  | nil
  | active
  | closed
deriving DecidableEq

/-- Run-time panics of the Go code that the embedding tracks. -/
inductive Panic where
  | closeOfClosedChannel
  | mustParse
  | sendOnClosedChannel
deriving DecidableEq

/-- Hub of type.go together with the part of the heap its loop touches.
`clients` is the registry `map[string]*Client`; `Send c` and `Sub c` are the
current values behind `c.Send` and `c.Sub`. -/
structure Hub where
  clients : String → Option Client
  Send : Client → Chan
  Sub : Client → PubSub

/-- Constructor `NewHub` of hub.go: an empty registry. Every session is created
by `ServeWs` with a channel of its own made by `make(chan []byte, 256)` and a
nil `Sub`. -/
def NewHub : Hub :=
  { clients := fun _ => none
    Send := fun _ => { buf := [], closed := false }
    Sub := fun _ => PubSub.nil }

/-- Map assignment `m[key] = c`. -/
def mapSet (m : String → Option Client) (key : String) (c : Client) :
    String → Option Client :=
  fun u => if u = key then some c else m u

/-- Built-in `delete(m, key)`. -/
def mapDelete (m : String → Option Client) (key : String) : String → Option Client :=
  fun u => if u = key then none else m u

/-- Built-in `close(ch)`: closing a closed channel panics. -/
def Chan.close (ch : Chan) : Except Panic Chan :=
  if ch.closed then .error .closeOfClosedChannel else .ok { ch with closed := true }

/-- Method `Close` of a go-redis subscription; it is only ever called on a
non-nil handle, and calling it again on a closed handle returns an error value
without any other effect. -/
def PubSub.Close : PubSub → PubSub
  | .nil => .nil
  | .active => .closed
  | .closed => .closed

/-- What the hub loop receives: a session on `h.register` or on `h.unregister`. -/
inductive HubEvent where
  | register (client : Client)
  | unregister (client : Client)
deriving DecidableEq

/-- One iteration of the `select` of `Hub.Run` (hub.go lines 22-39).

* register: `h.clients[client.UserID] = client`.
* unregister: `if _, ok := h.clients[client.UserID]; ok` then
  `delete(h.clients, client.UserID)`, `close(client.Send)` and, when
  `client.Sub != nil`, `client.Sub.Close()`. -/
def Hub.runStep (h : Hub) : HubEvent → Except Panic Hub
  | .register client =>
      .ok { h with clients := mapSet h.clients client.UserID client }
  | .unregister client =>
      match h.clients client.UserID with
      | some _ =>
          match (h.Send client).close with
          | .error p => .error p
          | .ok ch =>
              .ok { clients := mapDelete h.clients client.UserID
                    Send := fun c => if c = client then ch else h.Send c
                    Sub := fun c =>
                      if c = client ∧ h.Sub client ≠ PubSub.nil then (h.Sub client).Close
                      else h.Sub c }
      | none => .ok h

/-- Loop of `Hub.Run` on the submissions it receives, in order. A panic ends
the loop (and the process). -/
def Hub.Run (h : Hub) : List HubEvent → Except Panic Hub
  | [] => .ok h
  | ev :: rest =>
      match h.runStep ev with
      | .error p => .error p
      | .ok h1 => h1.Run rest

/-- Assignment `c.Sub = c.Hub.rdb.Subscribe(c.Hub.ctx, channel)` of
`listenToRedis` (pub-sub.go line 30), executed by the relay task of session `c`. -/
def Hub.subscribe (h : Hub) (c : Client) : Hub :=
  { h with Sub := fun x => if x = c then PubSub.active else h.Sub x }

/-- No submission `register d` with the identity of `c` is followed, later in
the list, by `unregister c`. -/
def noRegisterThenUnregister (c : Client) : List HubEvent → Bool
  | [] => true
  | .register d :: rest =>
      (decide (d.UserID = c.UserID → HubEvent.unregister c ∉ rest))
        && noRegisterThenUnregister c rest
  | .unregister _ :: rest => noRegisterThenUnregister c rest

/-- Between two submissions `unregister c` of one session there is no
`register` for the identity of `c`. -/
def unregistersSafe : List HubEvent → Bool
  | [] => true
  | .register _ :: rest => unregistersSafe rest
  | .unregister c :: rest => noRegisterThenUnregister c rest && unregistersSafe rest

/-- First of two connections of user `u`, used in the concrete runs. -/
def sessionOne : Client := { ptr := 1, UserID := "u" }

/-- Second connection of user `u`. -/
def sessionTwo : Client := { ptr := 2, UserID := "u" }

/-! ## Definitions: github.com/google/uuid as used by the chat code -/

/-- Type `uuid.UUID`: an array of 16 bytes. -/
abbrev UUID := Mathlib.Vector (Fin 256) 16

/-- Value `uuid.Nil`, the zero value of the array. -/
def UUID.Nil : UUID := Mathlib.Vector.replicate 16 0

/-- First 16 bytes of a list, padded with zero bytes: the array `uuid` of
`Parse` after the bytes in `l` have been assigned to its first positions. -/
def UUID.ofList (l : List (Fin 256)) : UUID :=
  ⟨(l ++ List.replicate 16 0).take 16, by simp⟩

/-- UTF-8 encoding of one character: the bytes a Go string holds for it. -/
def utf8Bytes (c : Char) : List Nat :=
  let v := c.toNat
  if v < 0x80 then [v]
  else if v < 0x800 then [0xC0 + v / 64, 0x80 + v % 64]
  else if v < 0x10000 then [0xE0 + v / 4096, 0x80 + v / 64 % 64, 0x80 + v % 64]
  else [0xF0 + v / 262144, 0x80 + v / 4096 % 64, 0x80 + v / 64 % 64, 0x80 + v % 64]

/-- Bytes of a Go string. -/
def goBytes (s : String) : List Nat := s.data.flatMap utf8Bytes

/-- Table `xvalues` of the uuid package: value of a hexadecimal digit of either
case, 255 for any other byte. -/
def xvalue (b : Nat) : Nat :=
  if 48 ≤ b ∧ b ≤ 57 then b - 48
  else if 65 ≤ b ∧ b ≤ 70 then b - 55
  else if 97 ≤ b ∧ b ≤ 102 then b - 87
  else 255

/-- Function `xtob`: two hexadecimal digits to the byte `(b1 << 4) | b2`, and
whether both were digits. -/
def xtob (x1 x2 : Nat) : Fin 256 × Bool :=
  (Fin.ofNat (((xvalue x1 * 16) % 256) ||| xvalue x2), xvalue x1 != 255 && xvalue x2 != 255)

/-- Offsets of the 16 digit pairs in the 36-byte form. -/
def hexOffsets : List Nat := [0, 2, 4, 6, 9, 11, 14, 16, 19, 21, 24, 26, 28, 30, 32, 34]

/-- Loop of `Parse` over the digit pairs at the given offsets; `acc` holds the
bytes assigned so far. A pair that is not hexadecimal ends the loop with an
error, the bytes assigned so far staying in the result. -/
def parsePairs (s : List Nat) : List Nat → List (Fin 256) → List (Fin 256) × Bool
  | [], acc => (acc, true)
  | x :: xs, acc =>
      let r := xtob (s.getD x 0) (s.getD (x + 1) 0)
      if r.2 then parsePairs s xs (acc ++ [r.1]) else (acc, false)

/-- Loop of the 32-byte case of `Parse`: there the byte is assigned before the
test. -/
def parsePlain (s : List Nat) : List Nat → List (Fin 256) → List (Fin 256) × Bool
  | [], acc => (acc, true)
  | x :: xs, acc =>
      let r := xtob (s.getD x 0) (s.getD (x + 1) 0)
      if r.2 then parsePlain s xs (acc ++ [r.1]) else (acc ++ [r.1], false)

/-- Tail of `Parse` for bytes of the form xxxxxxxx-xxxx-xxxx-xxxx-xxxxxxxxxxxx
(45 is the hyphen). -/
def parseDashed (s : List Nat) : UUID × Bool :=
  if s.getD 8 0 ≠ 45 ∨ s.getD 13 0 ≠ 45 ∨ s.getD 18 0 ≠ 45 ∨ s.getD 23 0 ≠ 45 then
    (UUID.Nil, false)
  else
    let r := parsePairs s hexOffsets []
    (UUID.ofList r.1, r.2)

/-- ASCII lower case of a byte. -/
def asciiLower (b : Nat) : Nat := if 65 ≤ b ∧ b ≤ 90 then b + 32 else b

/-- Function `uuid.Parse`. The second component is `true` when the returned
error is nil. It accepts the 36-byte form, that form behind `urn:uuid:` or inside
one enclosing byte on each side, and 32 hexadecimal digits; digits may be of
either case. On an error the array is returned as far as it was filled, which
matters to callers that drop the error. -/
def Parse (str : String) : UUID × Bool :=
  let s := goBytes str
  if s.length = 36 then parseDashed s
  else if s.length = 36 + 9 then
    if (s.take 9).map asciiLower ≠ goBytes "urn:uuid:" then (UUID.Nil, false)
    else parseDashed (s.drop 9)
  else if s.length = 36 + 2 then parseDashed (s.drop 1)
  else if s.length = 32 then
    let r := parsePlain s ((List.range 16).map (· * 2)) []
    (UUID.ofList r.1, r.2)
  else (UUID.Nil, false)

/-- Function `uuid.MustParse`: `Parse`, with a panic in place of the error. -/
def MustParse (str : String) : Except Panic UUID :=
  if (Parse str).2 then .ok (Parse str).1 else .error .mustParse

/-- Lexicographic order on byte sequences. -/
def bytesLt : List Nat → List Nat → Bool
  | [], [] => false
  | [], _ :: _ => true
  | _ :: _, [] => false
  | x :: xs, y :: ys => if x < y then true else if y < x then false else bytesLt xs ys

/-- Go comparison `a > b` of two strings: byte by byte. -/
def stringGt (a b : String) : Bool := bytesLt (goBytes b) (goBytes a)

/-- Table `hextable` of encoding/hex. -/
def hextable : List Char := "0123456789abcdef".data

/-- Entry `n` of `hextable`. -/
def hexDigit (n : Nat) : Char := hextable.getD n '0'

/-- Function `hex.Encode` on one byte. -/
def encodeByte (b : Fin 256) : List Char :=
  [hexDigit (b.val / 16), hexDigit (b.val % 16)]

/-- Method `UUID.String`: the form xxxxxxxx-xxxx-xxxx-xxxx-xxxxxxxxxxxx in lower
case (function `encodeHex`). -/
def UUID.String (u : UUID) : String :=
  let l := u.toList
  String.mk ((l.take 4).flatMap encodeByte ++ '-' :: ((l.drop 4).take 2).flatMap encodeByte
    ++ '-' :: ((l.drop 6).take 2).flatMap encodeByte
    ++ '-' :: ((l.drop 8).take 2).flatMap encodeByte
    ++ '-' :: (l.drop 10).flatMap encodeByte)

/-! ## Definitions: internals/model and the chat store -/

/-- Struct `model.ChatRoom`. The embedded `AppModel` is declared outside the
given sources; `Id` and `CreatedAt`, both strings, are the fields of it that the
chat code reads and writes. `LastMessageAt` is an `sql.NullString`. -/
structure ChatRoom where
  Id : String
  CreatedAt : String
  User1 : String
  User2 : String
  LastMessageAt : Option String
deriving DecidableEq

/-- Struct `model.ChatMessage` (with `Id` and `CreatedAt` of the embedded
`AppModel`). -/
structure ChatMessage where
  Id : String
  CreatedAt : String
  ChatRoomId : String
  SenderId : String
  Read : Bool
  Message : String
deriving DecidableEq

/-- Row of table "ChatRoom", with the columns named in the queries of
chat_repository.go. A timestamp is kept as the string the store returns for it. -/
structure ChatRoomRow where
  id : UUID
  user1 : UUID
  user2 : UUID
  created_at : String
  last_message_at : Option String
  constraint_user1_user2 : String
deriving DecidableEq

/-- Row of table "Messages", with the columns named in the queries. -/
structure MessagesRow where
  id : UUID
  chat_room_id : UUID
  sent_from : UUID
  content : String
  sent_at : String
  read_status : Bool
deriving DecidableEq

/-- The two tables behind `r.DB`, rows in insertion order. -/
structure DB where
  ChatRoom : List ChatRoomRow
  Messages : List MessagesRow
deriving DecidableEq

/-- An error value returned by the store. -/
inductive DBError where
  | failed
deriving DecidableEq

/-- `Scan` of the columns id, user1, user2, created_at, last_message_at into a
`model.ChatRoom`. -/
def scanRoom (r : ChatRoomRow) : ChatRoom :=
  { Id := r.id.String, CreatedAt := r.created_at, User1 := r.user1.String,
    User2 := r.user2.String, LastMessageAt := r.last_message_at }

/-- `Scan` of the columns id, chat_room_id, sent_from, content, sent_at,
read_status into a `model.ChatMessage`. -/
def scanMessage (m : MessagesRow) : ChatMessage :=
  { Id := m.id.String, CreatedAt := m.sent_at, ChatRoomId := m.chat_room_id.String,
    SenderId := m.sent_from.String, Read := m.read_status, Message := m.content }

/-- What the environment decides during one call of `FindOrCreateChatRoom`:
whether the SELECT fails with an error other than `sql.ErrNoRows`, whether the
INSERT fails, the value of `uuid.New()` and the value of `time.Now().UTC()`. -/
structure RoomEnv where
  selectErr : Bool
  insertErr : Bool
  roomID : UUID
  now : String
deriving DecidableEq

/-- Method `Repository.FindOrCreateChatRoom` (chat_repository.go lines 13-48):
order the two identities by their string forms, SELECT the row with that
`user1` and `user2`, and INSERT one when there is none. -/
def FindOrCreateChatRoom (db : DB) (env : RoomEnv) (user1ID user2ID : UUID) :
    Except DBError ChatRoom × DB :=
  let ordered : UUID × UUID :=
    if stringGt user1ID.String user2ID.String then (user2ID, user1ID)
    else (user1ID, user2ID)
  if env.selectErr then (.error .failed, db)
  else
    match db.ChatRoom.find? (fun r => r.user1 = ordered.1 ∧ r.user2 = ordered.2) with
    | some row => (.ok (scanRoom row), db)
    | none =>
        if env.insertErr then (.error .failed, db)
        else
          let row : ChatRoomRow :=
            { id := env.roomID, user1 := ordered.1, user2 := ordered.2,
              created_at := env.now, last_message_at := none,
              constraint_user1_user2 := ordered.1.String ++ ":" ++ ordered.2.String }
          (.ok (scanRoom row), { db with ChatRoom := db.ChatRoom ++ [row] })

/-- What the environment decides during one call of `CreateMessage`: failure of
`Begin`, of the INSERT, of the UPDATE, of `Commit`, and the values of
`uuid.New()` and `time.Now().UTC()`. -/
structure MsgEnv where
  beginErr : Bool
  insertErr : Bool
  updateErr : Bool
  commitErr : Bool
  msgID : UUID
  sentAt : String
deriving DecidableEq

/-- Method `Repository.CreateMessage` (chat_repository.go lines 51-77): in one
transaction, INSERT the message (column `read_status` takes its default, false)
and UPDATE `last_message_at` of the room; any failure rolls the transaction
back. The INSERT names no `read_status`: the value it returns is the default of
the column, `BOOLEAN NOT NULL DEFAULT FALSE` in the table declaration that
migrations.go keeps as a comment, which is also the default the specification
gives for the read flag. -/
def CreateMessage (db : DB) (env : MsgEnv) (roomID senderID : UUID) (content : String) :
    Except DBError ChatMessage × DB :=
  if env.beginErr then (.error .failed, db)
  else if env.insertErr then (.error .failed, db)
  else
    let row : MessagesRow :=
      { id := env.msgID, chat_room_id := roomID, sent_from := senderID,
        content := content, sent_at := env.sentAt, read_status := false }
    if env.updateErr then (.error .failed, db)
    else if env.commitErr then (.error .failed, db)
    else
      (.ok (scanMessage row),
        { ChatRoom := db.ChatRoom.map fun r =>
            if r.id = roomID then { r with last_message_at := some env.sentAt } else r
          Messages := db.Messages ++ [row] })

/-! ## Definitions: internals/chat/redis (client.go, pub-sub.go) and ServeWs -/

/-- Struct `IncomingChatMessage`. -/
structure IncomingChatMessage where
  RecipientID : String
  Content : String
deriving DecidableEq

/-- Struct `OutgoingChatMessage`. -/
structure OutgoingChatMessage where
  MessageID : String
  SenderID : String
  Content : String
  SentAt : String
  ChatRoomID : String
deriving DecidableEq

/-- The two functions of encoding/json the read loop calls, taken as
parameters: `Unmarshal` into an `IncomingChatMessage` and `Marshal` of an
`OutgoingChatMessage`; `none` is a non-nil error. -/
structure JSON where
  Unmarshal : Bytes → Option IncomingChatMessage
  Marshal : OutgoingChatMessage → Option Bytes

/-- Method `Hub.userChannel`: `fmt.Sprintf("user:%s", userID)`. -/
def Hub.userChannel (userID : String) : String := "user:" ++ userID

/-- Channel that `listenToRedis` subscribes session `c` to (pub-sub.go lines 27
and 30). -/
def Client.subscribedChannel (c : Client) : String := Hub.userChannel c.UserID

/-- The session `ServeWs` builds for the authenticated identity `userID`
(chat_handlers.go lines 74-79): `UserID: userID.String()`. -/
def ServeWs.client (ptr : Nat) (userID : UUID) : Client :=
  { ptr := ptr, UserID := userID.String }

/-- Calls the read loop makes on its collaborators, in the order made. The last
field of `Publish` tells whether the bus returned an error. -/
inductive Action where
  | FindOrCreateChatRoom (user1ID user2ID : UUID)
  | CreateMessage (roomID senderID : UUID) (content : String)
  | Publish (channel : String) (message : Bytes) (err : Bool)
  | unregister (c : Client)
  | ConnClose
deriving DecidableEq

/-- What the read loop acts on: the store and the log of its calls. -/
structure World where
  db : DB
  trace : List Action
deriving DecidableEq

/-- What the environment decides while one frame is processed. -/
structure FrameEnv where
  room : RoomEnv
  msg : MsgEnv
  publishRecipientErr : Bool
  publishSenderErr : Bool
deriving DecidableEq

/-- Method `Hub.PublishToUser` (pub-sub.go lines 8-17): one `Publish` on the
channel of `userID`; an error is logged and dropped. -/
def Hub.PublishToUser (w : World) (userID : String) (message : Bytes) (err : Bool) : World :=
  { w with trace := w.trace ++ [Action.Publish (Hub.userChannel userID) message err] }

/-- The literal of client.go lines 79-85. -/
def outgoingMsg (c : Client) (dbMsg : ChatMessage) : OutgoingChatMessage :=
  { MessageID := dbMsg.Id, SenderID := c.UserID, Content := dbMsg.Message,
    SentAt := dbMsg.CreatedAt, ChatRoomID := dbMsg.ChatRoomId }

/-- Body of the loop of `ReadPump` for a frame that was read without error
(client.go lines 55-96). Every `continue` returns the world reached so far. -/
def ReadPump.frame (json : JSON) (c : Client) (w : World) (env : FrameEnv)
    (message : Bytes) : Except Panic World :=
  match json.Unmarshal message with
  | none => .ok w
  | some msg =>
      let senderID := (Parse c.UserID).1
      let recipientID := (Parse msg.RecipientID).1
      let w1 : World :=
        { db := (FindOrCreateChatRoom w.db env.room senderID recipientID).2
          trace := w.trace ++ [Action.FindOrCreateChatRoom senderID recipientID] }
      match (FindOrCreateChatRoom w.db env.room senderID recipientID).1 with
      | .error _ => .ok w1
      | .ok room =>
          match MustParse room.Id with
          | .error p => .error p
          | .ok roomID =>
              let w2 : World :=
                { db := (CreateMessage w1.db env.msg roomID senderID msg.Content).2
                  trace := w1.trace ++ [Action.CreateMessage roomID senderID msg.Content] }
              match (CreateMessage w1.db env.msg roomID senderID msg.Content).1 with
              | .error _ => .ok w2
              | .ok dbMsg =>
                  match json.Marshal (outgoingMsg c dbMsg) with
                  | none => .ok w2
                  | some payload =>
                      let w3 := Hub.PublishToUser w2 msg.RecipientID payload
                        env.publishRecipientErr
                      .ok (Hub.PublishToUser w3 c.UserID payload env.publishSenderErr)

/-- Result of one `c.Conn.ReadMessage()`: an error, or the bytes of a frame
together with what the environment decides while it is processed. -/
inductive ReadResult where
  | err
  | message (bytes : Bytes) (env : FrameEnv)
deriving DecidableEq

/-- Method `Client.ReadPump` on the results its successive reads return. A read
error leaves the loop, and the deferred function then submits the session to
`unregister` and closes the connection; the second component tells whether the
method has returned. With no further read result the method is blocked in
`ReadMessage`. -/
def ReadPump (json : JSON) (c : Client) (w : World) : List ReadResult →
    Except Panic (World × Bool)
  | [] => .ok (w, false)
  | .err :: _ =>
      .ok ({ w with trace := w.trace ++ [Action.unregister c, Action.ConnClose] }, true)
  | .message bytes env :: rest =>
      match ReadPump.frame json c w env bytes with
      | .error p => .error p
      | .ok w1 => ReadPump json c w1 rest

/-- All store operations of one frame succeed. -/
def FrameEnv.persistenceOK (env : FrameEnv) : Bool :=
  !env.room.selectErr && !env.room.insertErr && !env.msg.beginErr && !env.msg.insertErr
    && !env.msg.updateErr && !env.msg.commitErr

/-- Both publishes of one frame succeed. -/
def FrameEnv.busOK (env : FrameEnv) : Bool :=
  !env.publishRecipientErr && !env.publishSenderErr

/-- The action is a call of `CreateMessage`. -/
def Action.isCreateMessage : Action → Bool
  | .CreateMessage _ _ _ => true
  | _ => false

/-- The action is a publish on the bus. -/
def Action.isPublish : Action → Bool
  | .Publish _ _ _ => true
  | _ => false

/-- A small codec standing in for encoding/json in the concrete runs: an inbound
frame is `recipient|content`. -/
def demoJSON : JSON :=
  { Unmarshal := fun b =>
      match b.data.span (fun ch => ch != '|') with
      | (r, _ :: rest) => some { RecipientID := String.mk r, Content := String.mk rest }
      | (_, []) => none
    Marshal := fun m =>
      some (m.MessageID ++ "|" ++ m.SenderID ++ "|" ++ m.Content ++ "|" ++ m.SentAt
        ++ "|" ++ m.ChatRoomID) }

/-- Identity of the sending user in the concrete runs:
11111111-1111-1111-1111-111111111111. -/
def userA : UUID := UUID.ofList (List.replicate 16 0x11)

/-- Identity of the receiving user in the concrete runs:
a0eebc99-9c0b-4ef8-bb6d-6bb9bd380a11. -/
def userB : UUID :=
  UUID.ofList [0xa0, 0xee, 0xbc, 0x99, 0x9c, 0x0b, 0x4e, 0xf8, 0xbb, 0x6d, 0x6b, 0xb9,
    0xbd, 0x38, 0x0a, 0x11]

/-- A frame environment without failures; the fresh identifiers are
22222222-2222-2222-2222-222222222222 for the room and
33333333-3333-3333-3333-333333333333 for the message. -/
def demoEnv : FrameEnv :=
  { room := { selectErr := false, insertErr := false,
              roomID := UUID.ofList (List.replicate 16 0x22), now := "t0" }
    msg := { beginErr := false, insertErr := false, updateErr := false, commitErr := false,
             msgID := UUID.ofList (List.replicate 16 0x33), sentAt := "t1" }
    publishRecipientErr := false
    publishSenderErr := false }

/-- An empty store and an empty log. -/
def emptyWorld : World := { db := { ChatRoom := [], Messages := [] }, trace := [] }

/-! ## Definitions: further store operations and the vocabulary of their properties -/

/-- Method `Repository.MarkMessagesAsRead` (chat_repository.go lines 105-112):
`UPDATE "Messages" SET read_status = TRUE WHERE chat_room_id = $1 AND
sent_from != $2 AND read_status = FALSE`. `execErr` tells whether `Exec` fails;
the error is then returned and no row is changed. -/
def MarkMessagesAsRead (db : DB) (execErr : Bool) (roomID readerID : UUID) :
    Option DBError × DB :=
  if execErr then (some .failed, db)
  else
    (none,
      { db with Messages := db.Messages.map fun m =>
          if m.chat_room_id = roomID ∧ m.sent_from ≠ readerID ∧ m.read_status = false then
            { m with read_status := true }
          else m })

/-- The two identities after the swap of chat_repository.go lines 16-18. -/
def orderedIDs (user1ID user2ID : UUID) : UUID × UUID :=
  if stringGt user1ID.String user2ID.String then (user2ID, user1ID) else (user1ID, user2ID)

/-- Condition `user1 = $1 AND user2 = $2` of the SELECT of `FindOrCreateChatRoom`. -/
def roomMatches (ord : UUID × UUID) (r : ChatRoomRow) : Bool :=
  decide (r.user1 = ord.1 ∧ r.user2 = ord.2)

/-- The row the INSERT of `FindOrCreateChatRoom` adds. -/
def newRoomRow (env : RoomEnv) (ord : UUID × UUID) : ChatRoomRow :=
  { id := env.roomID, user1 := ord.1, user2 := ord.2, created_at := env.now,
    last_message_at := none,
    constraint_user1_user2 := ord.1.String ++ ":" ++ ord.2.String }

/-- The participants of a stored room are in canonical order: the string form of
`user1` is not greater than that of `user2`. -/
def ChatRoomRow.canonical (r : ChatRoomRow) : Bool :=
  !stringGt r.user1.String r.user2.String

/-- Two stored rooms have the same unordered pair of participants. -/
def ChatRoomRow.samePair (r s : ChatRoomRow) : Bool :=
  decide ((r.user1 = s.user1 ∧ r.user2 = s.user2) ∨ (r.user1 = s.user2 ∧ r.user2 = s.user1))

/-- One call of `FindOrCreateChatRoom`: its arguments and what the environment
decides during it. -/
structure RoomCall where
  env : RoomEnv
  user1ID : UUID
  user2ID : UUID
deriving DecidableEq

/-- The store after a sequence of `FindOrCreateChatRoom` calls. -/
def findOrCreateAll (db : DB) : List RoomCall → DB
  | [] => db
  | call :: rest =>
      findOrCreateAll (FindOrCreateChatRoom db call.env call.user1ID call.user2ID).2 rest

/-- A chat persistence operation with its arguments and what the environment
decides during it. -/
inductive StoreOp where
  | FindOrCreateChatRoom (env : RoomEnv) (user1ID user2ID : UUID)
  | CreateMessage (env : MsgEnv) (roomID senderID : UUID) (content : String)
  | MarkMessagesAsRead (execErr : Bool) (roomID readerID : UUID)
deriving DecidableEq

/-- The store after a chat persistence operation. -/
def StoreOp.apply (db : DB) : StoreOp → DB
  | .FindOrCreateChatRoom env user1ID user2ID =>
      (Sportsin.FindOrCreateChatRoom db env user1ID user2ID).2
  | .CreateMessage env roomID senderID content =>
      (Sportsin.CreateMessage db env roomID senderID content).2
  | .MarkMessagesAsRead execErr roomID readerID =>
      (Sportsin.MarkMessagesAsRead db execErr roomID readerID).2

/-- The action is a call of `FindOrCreateChatRoom`. -/
def Action.isFindOrCreateChatRoom : Action → Bool
  | .FindOrCreateChatRoom _ _ => true
  | _ => false

/-- A frame read on a session, with what the environment decides while it is
processed and the message it decodes to. -/
structure InboundFrame where
  bytes : Bytes
  env : FrameEnv
  msg : IncomingChatMessage
deriving DecidableEq

/-- What the read loop of session `c` does for one frame that is stored and
published without failure: the room lookup, the message insert in room `roomID`,
the publish of `payload` to the recipient and the publish of it to the sender. -/
def frameActions (c : Client) (msg : IncomingChatMessage) (roomID : UUID)
    (payload : Bytes) : List Action :=
  [Action.FindOrCreateChatRoom (Parse c.UserID).1 (Parse msg.RecipientID).1,
   Action.CreateMessage roomID (Parse c.UserID).1 msg.Content,
   Action.Publish (Hub.userChannel msg.RecipientID) payload false,
   Action.Publish (Hub.userChannel c.UserID) payload false]

/-- A frame environment in which the SELECT of the room lookup fails. -/
def failingRoomEnv : FrameEnv :=
  { demoEnv with room := { demoEnv.room with selectErr := true } }

/-- A frame environment in which the publish to the recipient fails. -/
def failingBusEnv : FrameEnv := { demoEnv with publishRecipientErr := true }

/-! ## Definitions: the relay loop and the outbound-write loop -/

/-- Capacity of the outbound channel: `make(chan []byte, 256)` in `ServeWs`
(chat_handlers.go line 77). -/
def sendCapacity : Nat := 256

/-- The statement `select { case c.Send <- payload: ... default: ... }` of
`listenToRedis` (pub-sub.go lines 42-47): the payload is queued when the buffer
has room and dropped otherwise; a send on a closed channel panics, also inside a
`select` with a `default`. -/
def Chan.trySend (ch : Chan) (payload : Bytes) : Except Panic Chan :=
  if ch.closed then .error .sendOnClosedChannel
  else if ch.buf.length < sendCapacity then .ok { ch with buf := ch.buf ++ [payload] }
  else .ok ch

/-- Loop `for msg := range ch` of `listenToRedis` (pub-sub.go lines 39-48) on the
payloads the subscription yields, threading the state of `c.Send`. The write
loop may take payloads off the head of the channel between two iterations; the
properties of one iteration are stated for every state of the channel. -/
def listenToRedis (ch : Chan) : List Bytes → Except Panic Chan
  | [] => .ok ch
  | payload :: rest =>
      match ch.trySend payload with
      | .error p => .error p
      | .ok ch1 => listenToRedis ch1 rest

/-- Constant `time.Second` in nanoseconds, the unit of `time.Duration`. -/
def Second : Nat := 1000000000

/-- Constant `writeWait` (client.go line 15). -/
def writeWait : Nat := 10 * Second

/-- Constant `pongWait` (client.go line 17). -/
def pongWait : Nat := 60 * Second

/-- Constant `pingPeriod` (client.go line 19); the division is that of integers. -/
def pingPeriod : Nat := (pongWait * 9) / 10

/-- What `WritePump` does on the connection. `TextMessage payload flushed` is a
text frame obtained from `NextWriter` and filled with `payload`; `flushed` tells
whether closing the writer succeeded. -/
inductive ConnOp where
  | SetWriteDeadline (deadline : Nat)
  | TextMessage (payload : Bytes) (flushed : Bool)
  | CloseMessage
  | PingMessage (ok : Bool)
  | Close
deriving DecidableEq, Repr

/-- Outcome of one `select` of `WritePump` with what the environment decides
while it is handled: a payload received from `c.Send`, the channel found closed,
or a tick of the ping timer; `now` is the value of `time.Now()`. -/
inductive WriteEvent where
  | recv (message : Bytes) (now : Nat) (nextWriterErr closeErr : Bool)
  | closed (now : Nat)
  | tick (now : Nat) (pingErr : Bool)
deriving DecidableEq, Repr

/-- Clock reading of an event. -/
def WriteEvent.now : WriteEvent → Nat
  | .recv _ now _ _ => now
  | .closed now => now
  | .tick now _ => now

/-- One iteration of the loop of `WritePump` (client.go lines 111-134): the
operations on the connection and whether the method returns. -/
def WritePump.step : WriteEvent → List ConnOp × Bool
  | .recv message now nextWriterErr closeErr =>
      if nextWriterErr then ([ConnOp.SetWriteDeadline (now + writeWait)], true)
      else if closeErr then
        ([ConnOp.SetWriteDeadline (now + writeWait), ConnOp.TextMessage message false], true)
      else
        ([ConnOp.SetWriteDeadline (now + writeWait), ConnOp.TextMessage message true], false)
  | .closed now => ([ConnOp.SetWriteDeadline (now + writeWait), ConnOp.CloseMessage], true)
  | .tick now pingErr =>
      ([ConnOp.SetWriteDeadline (now + writeWait), ConnOp.PingMessage (!pingErr)], pingErr)

/-- Method `Client.WritePump` on the outcomes of its successive `select`s: the
operations on the connection, in order, and whether the method has returned. On
return the deferred function closes the connection. -/
def WritePump : List WriteEvent → List ConnOp × Bool
  | [] => ([], false)
  | ev :: rest =>
      if (WritePump.step ev).2 then ((WritePump.step ev).1 ++ [ConnOp.Close], true)
      else ((WritePump.step ev).1 ++ (WritePump rest).1, (WritePump rest).2)

/-- The payloads of the text frames that were written and flushed. -/
def textFrames : List ConnOp → List Bytes
  | [] => []
  | .TextMessage payload true :: rest => payload :: textFrames rest
  | _ :: rest => textFrames rest

/-- The event is a payload whose frame is written without error, or a tick
whose ping is written without error. -/
def WriteEvent.succeeds : WriteEvent → Bool
  | .recv _ _ nextWriterErr closeErr => !nextWriterErr && !closeErr
  | .closed _ => false
  | .tick _ pingErr => !pingErr

/-- The payloads received from the channel in a sequence of events. -/
def receivedPayloads : List WriteEvent → List Bytes
  | [] => []
  | .recv message _ _ _ :: rest => message :: receivedPayloads rest
  | _ :: rest => receivedPayloads rest

/-- The event is a failed write of a frame or a failed ping. -/
def WriteEvent.fails : WriteEvent → Bool
  | .recv _ _ nextWriterErr closeErr => nextWriterErr || closeErr
  | .closed _ => false
  | .tick _ pingErr => pingErr

/-- The action is the submission of an unregister or the close of the
connection. -/
def Action.isTeardown : Action → Bool
  | .unregister _ => true
  | .ConnClose => true
  | _ => false

/-! ## Definitions: the HTTP handlers of chat_handlers.go and what they call -/

/-- Loop of `strconv.ParseUint(s, 10, 64)` over the bytes of the digits, `n`
being the value read so far: a byte that is not a decimal digit is a syntax
error with value 0; a value that leaves the range of 64 bits ends the loop at
once with the largest value and a range error. The second component is `none`
without error, `some false` for a syntax error, `some true` for a range error. -/
def parseUintLoop : List Nat → Nat → Nat × Option Bool
  | [], n => (n, none)
  | c :: cs, n =>
      if ¬ (48 ≤ c ∧ c ≤ 57) then (0, some false)
      else if n ≥ (2 ^ 64 - 1) / 10 + 1 then (2 ^ 64 - 1, some true)
      else if n * 10 + (c - 48) > 2 ^ 64 - 1 then (2 ^ 64 - 1, some true)
      else parseUintLoop cs (n * 10 + (c - 48))

/-- Function `strconv.Atoi` for a 64-bit `int`: the value and whether the error
is nil. An optional sign is followed by decimal digits; a syntax error gives 0,
a value out of range gives the nearest bound. -/
def Atoi (str : String) : Int × Bool :=
  match goBytes str with
  | [] => (0, false)
  | c :: cs =>
      let neg : Bool := c = 45
      let digits := if c = 45 ∨ c = 43 then cs else c :: cs
      match digits with
      | [] => (0, false)
      | d :: ds =>
          match parseUintLoop (d :: ds) 0 with
          | (_, some false) => (0, false)
          | (un, e) =>
              if !neg ∧ un ≥ 2 ^ 63 then (2 ^ 63 - 1, false)
              else if neg ∧ un > 2 ^ 63 then (-(2 ^ 63), false)
              else (if neg then -(un : Int) else (un : Int), e.isNone)

/-- Lines 149-158 of `GetMessages`: the limit and the offset passed to
`GetMessagesForRoom`, from the query strings `limit` and `offset` (`none` when
the key is absent, in which case `DefaultQuery` gives "50" and "0"). -/
def pagination (limitQ offsetQ : Option String) : Int × Int :=
  let limit := (Atoi (limitQ.getD "50")).1
  let offset := (Atoi (offsetQ.getD "0")).1
  (if limit ≤ 0 ∨ limit > 100 then 50 else limit, if offset < 0 then 0 else offset)

/-- Method `Repository.IsUserInChatRoom` (chat_repository.go lines 138-149):
`SELECT 1 FROM "ChatRoom" WHERE id = $1 AND (user1 = $2 OR user2 = $2)`;
`sql.ErrNoRows` gives false, any other error is returned. -/
def IsUserInChatRoom (db : DB) (queryErr : Bool) (roomID userID : UUID) :
    Except DBError Bool :=
  if queryErr then .error .failed
  else .ok (db.ChatRoom.any fun r => r.id = roomID ∧ (r.user1 = userID ∨ r.user2 = userID))

/-- Insertion of a row into rows ordered by `sent_at`, after the rows of the
same `sent_at`. -/
def insertBySentAt (m : MessagesRow) : List MessagesRow → List MessagesRow
  | [] => [m]
  | x :: xs =>
      if bytesLt (goBytes m.sent_at) (goBytes x.sent_at) then m :: x :: xs
      else x :: insertBySentAt m xs

/-- Clause `ORDER BY sent_at ASC`: timestamps are compared through the strings
that stand for them, and rows of equal timestamp stay in insertion order (one of
the orders the store may return). -/
def orderBySentAt (rows : List MessagesRow) : List MessagesRow :=
  rows.foldl (fun acc m => insertBySentAt m acc) []

/-- Method `Repository.GetMessagesForRoom` (chat_repository.go lines 80-102):
`SELECT ... FROM "Messages" WHERE chat_room_id = $1 ORDER BY sent_at ASC LIMIT $2
OFFSET $3`. A failing query returns the error (a negative LIMIT or OFFSET makes
the query fail); a row whose `Scan` fails is skipped. -/
def GetMessagesForRoom (db : DB) (queryErr : Bool) (scanErr : MessagesRow → Bool)
    (roomID : UUID) (limit offset : Int) : Except DBError (List ChatMessage) :=
  if queryErr ∨ limit < 0 ∨ offset < 0 then .error .failed
  else
    .ok ((((orderBySentAt (db.Messages.filter fun m => m.chat_room_id = roomID)).drop
      offset.toNat).take limit.toNat).filter (fun m => !scanErr m) |>.map scanMessage)

/-- Calls a handler makes on the repository, in the order made. -/
inductive RepoCall where
  | IsUserInChatRoom (roomID userID : UUID)
  | GetMessagesForRoom (roomID : UUID) (limit offset : Int)
  | MarkMessagesAsRead (roomID readerID : UUID)
  | CreateMessage (roomID senderID : UUID) (content : String)
  | FindOrCreateChatRoom (user1ID user2ID : UUID)
  | GetUserSnsEndpointArn (userID : UUID)
deriving DecidableEq

/-- Body of a JSON response. -/
inductive Body where
  | error (text : String)
  | message (text : String)
  | messages (list : List ChatMessage)
  | chatMessage (msg : ChatMessage)
deriving DecidableEq

/-- Answer of a handler: HTTP status and body. -/
structure Response where
  status : Nat
  body : Body
deriving DecidableEq

/-- What a handler leaves behind: its answer, the store (once the task it may
have started in the background has run) and the repository calls made. -/
structure HandlerResult where
  response : Response
  db : DB
  calls : List RepoCall
deriving DecidableEq

/-- What the environment decides during `GetMessages` or `MarkRoomAsRead`:
failure of the authorization query, of the message query, of the `Scan` of a
row, and of the UPDATE. -/
structure HandlerEnv where
  authErr : Bool
  queryErr : Bool
  scanErr : MessagesRow → Bool
  markErr : Bool

/-- Handler `ChatHandler.GetMessages` (chat_handlers.go lines 117-176).
`userIDStr` is the value of the context key `userID` (`none` when absent),
`roomIDStr` the path parameter. After the fetch the handler starts
`MarkMessagesAsRead` for the room and the caller in the background; `db` of the
result is the store after that call. -/
def GetMessages (db : DB) (env : HandlerEnv) (userIDStr : Option String)
    (roomIDStr : String) (limitQ offsetQ : Option String) : HandlerResult :=
  match userIDStr with
  | none => { response := ⟨401, .error "User not authenticated"⟩, db := db, calls := [] }
  | some us =>
      if !(Parse us).2 then
        { response := ⟨400, .error "Invalid user ID format"⟩, db := db, calls := [] }
      else if !(Parse roomIDStr).2 then
        { response := ⟨400, .error "Invalid room ID"⟩, db := db, calls := [] }
      else
        let userID := (Parse us).1
        let roomID := (Parse roomIDStr).1
        match IsUserInChatRoom db env.authErr roomID userID with
        | .error _ =>
            { response := ⟨500, .error "Authorization check failed"⟩, db := db,
              calls := [RepoCall.IsUserInChatRoom roomID userID] }
        | .ok false =>
            { response := ⟨403, .error "Access denied to this chat room"⟩, db := db,
              calls := [RepoCall.IsUserInChatRoom roomID userID] }
        | .ok true =>
            let lo := pagination limitQ offsetQ
            match GetMessagesForRoom db env.queryErr env.scanErr roomID lo.1 lo.2 with
            | .error _ =>
                { response := ⟨500, .error "Failed to retrieve messages"⟩, db := db,
                  calls := [RepoCall.IsUserInChatRoom roomID userID,
                            RepoCall.GetMessagesForRoom roomID lo.1 lo.2] }
            | .ok messages =>
                { response := ⟨200, .messages messages⟩
                  db := (MarkMessagesAsRead db env.markErr roomID userID).2
                  calls := [RepoCall.IsUserInChatRoom roomID userID,
                            RepoCall.GetMessagesForRoom roomID lo.1 lo.2,
                            RepoCall.MarkMessagesAsRead roomID userID] }

/-- Handler `ChatHandler.MarkRoomAsRead` (chat_handlers.go lines 179-218). -/
def MarkRoomAsRead (db : DB) (env : HandlerEnv) (userIDStr : Option String)
    (roomIDStr : String) : HandlerResult :=
  match userIDStr with
  | none => { response := ⟨401, .error "User not authenticated"⟩, db := db, calls := [] }
  | some us =>
      if !(Parse us).2 then
        { response := ⟨400, .error "Invalid user ID format"⟩, db := db, calls := [] }
      else if !(Parse roomIDStr).2 then
        { response := ⟨400, .error "Invalid room ID"⟩, db := db, calls := [] }
      else
        let userID := (Parse us).1
        let roomID := (Parse roomIDStr).1
        match IsUserInChatRoom db env.authErr roomID userID with
        | .error _ =>
            { response := ⟨500, .error "Authorization check failed"⟩, db := db,
              calls := [RepoCall.IsUserInChatRoom roomID userID] }
        | .ok false =>
            { response := ⟨403, .error "Access denied to this chat room"⟩, db := db,
              calls := [RepoCall.IsUserInChatRoom roomID userID] }
        | .ok true =>
            match (MarkMessagesAsRead db env.markErr roomID userID).1 with
            | some _ =>
                { response := ⟨500, .error "Failed to mark messages as read"⟩
                  db := (MarkMessagesAsRead db env.markErr roomID userID).2
                  calls := [RepoCall.IsUserInChatRoom roomID userID,
                            RepoCall.MarkMessagesAsRead roomID userID] }
            | none =>
                { response := ⟨200, .message "Messages marked as read"⟩
                  db := (MarkMessagesAsRead db env.markErr roomID userID).2
                  calls := [RepoCall.IsUserInChatRoom roomID userID,
                            RepoCall.MarkMessagesAsRead roomID userID] }

/-- What the environment decides during `SendMessage`: the message bound from
the JSON body (`none` when `ShouldBindJSON` fails), the two store calls, and the
result of `GetUserSnsEndpointArn` (`none` for an error). -/
structure SendEnv where
  bind : Option String
  msg : MsgEnv
  room : RoomEnv
  arn : Option String
deriving DecidableEq

/-- What `SendMessage` leaves behind: its answer, the store, the repository
calls made, the recipient identity it determined and the endpoint it notified. -/
structure SendResult where
  response : Response
  db : DB
  calls : List RepoCall
  recipientID : Option String
  notified : Option String
deriving DecidableEq

/-- Handler `ChatHandler.SendMessage` (chat_handlers.go lines 221-276). The
recipient is looked for through
`FindOrCreateChatRoom(uuid.MustParse(msg.ChatRoomId), uuid.MustParse(userID))`. -/
def SendMessage (db : DB) (env : SendEnv) (userIDStr : Option String) (roomID : String) :
    Except Panic SendResult :=
  match userIDStr with
  | none =>
      .ok { response := ⟨401, .error "User not authenticated"⟩, db := db, calls := [],
            recipientID := none, notified := none }
  | some userID =>
      match env.bind with
      | none =>
          .ok { response := ⟨400, .error "Invalid request body"⟩, db := db, calls := [],
                recipientID := none, notified := none }
      | some message =>
          match MustParse roomID, MustParse userID with
          | .error p, _ => .error p
          | .ok _, .error p => .error p
          | .ok r, .ok u =>
              match CreateMessage db env.msg r u message with
              | (.error _, db1) =>
                  .ok { response := ⟨500, .error "Failed to send message"⟩, db := db1,
                        calls := [RepoCall.CreateMessage r u message],
                        recipientID := none, notified := none }
              | (.ok msg, db1) =>
                  match MustParse msg.ChatRoomId with
                  | .error p => .error p
                  | .ok r2 =>
                      match FindOrCreateChatRoom db1 env.room r2 u with
                      | (.error _, db2) =>
                          .ok { response := ⟨500, .error "Failed to fetch chat room"⟩,
                                db := db2,
                                calls := [RepoCall.CreateMessage r u message,
                                          RepoCall.FindOrCreateChatRoom r2 u],
                                recipientID := none, notified := none }
                      | (.ok room, db2) =>
                          let recipientID :=
                            if room.User1 = userID then room.User2 else room.User1
                          match MustParse recipientID with
                          | .error p => .error p
                          | .ok rid =>
                              .ok { response := ⟨200, .chatMessage msg⟩, db := db2,
                                    calls := [RepoCall.CreateMessage r u message,
                                              RepoCall.FindOrCreateChatRoom r2 u,
                                              RepoCall.GetUserSnsEndpointArn rid],
                                    recipientID := some recipientID,
                                    notified := match env.arn with
                                      | some arn => if arn ≠ "" then some arn else none
                                      | none => none }

/-- Identifier of the room of `userA` and `userB` in the concrete runs:
22222222-2222-2222-2222-222222222222. -/
def roomR : UUID := UUID.ofList (List.replicate 16 0x22)

/-- A store with the room `roomR` of `userA` and `userB` and two unread messages
of `userB` in it, sent at `t1` and `t2`. -/
def demoDB : DB :=
  { ChatRoom := [{ id := roomR, user1 := userA, user2 := userB, created_at := "t0",
                   last_message_at := some "t2",
                   constraint_user1_user2 := userA.String ++ ":" ++ userB.String }]
    Messages :=
      [{ id := UUID.ofList (List.replicate 16 0x31), chat_room_id := roomR,
         sent_from := userB, content := "one", sent_at := "t1", read_status := false },
       { id := UUID.ofList (List.replicate 16 0x32), chat_room_id := roomR,
         sent_from := userB, content := "two", sent_at := "t2", read_status := false }] }

/-- A handler environment without failures. -/
def okHandlerEnv : HandlerEnv :=
  { authErr := false, queryErr := false, scanErr := fun _ => false, markErr := false }

/-- Environment of a `SendMessage` without failures; the fresh identifiers are
33333333-3333-3333-3333-333333333333 for the message and
44444444-4444-4444-4444-444444444444 for a room. -/
def demoSendEnv : SendEnv :=
  { bind := some "hi"
    msg := demoEnv.msg
    room := { selectErr := false, insertErr := false,
              roomID := UUID.ofList (List.replicate 16 0x44), now := "t3" }
    arn := none }

/-! ## Theorems: the hub loop -/

theorem runStep_register (h : Hub) (s : Client) :
    h.runStep (.register s) = .ok { h with clients := mapSet h.clients s.UserID s } := rfl

theorem runStep_unregister_absent (h : Hub) (s : Client)
    (hs : h.clients s.UserID = none) : h.runStep (.unregister s) = .ok h := by
  simp [Hub.runStep, hs]

theorem runStep_unregister_present (h : Hub) (s x : Client)
    (hs : h.clients s.UserID = some x) (ho : (h.Send s).closed = false) :
    h.runStep (.unregister s) =
      .ok { clients := mapDelete h.clients s.UserID
            Send := fun c => if c = s then { h.Send s with closed := true } else h.Send c
            Sub := fun c =>
              if c = s ∧ h.Sub s ≠ PubSub.nil then (h.Sub s).Close else h.Sub c } := by
  simp [Hub.runStep, hs, Chan.close, ho]

theorem runStep_unregister_closed (h : Hub) (s x : Client)
    (hs : h.clients s.UserID = some x) (hc : (h.Send s).closed = true) :
    h.runStep (.unregister s) = .error .closeOfClosedChannel := by
  simp [Hub.runStep, hs, Chan.close, hc]

/-- Claim C1 (fails on the code): with the newer session `sessionTwo` registered
for user `u`, processing the stale `unregister sessionOne` removes the registry
entry of `u`; the stale unregister is not a no-op. The channel of the newer
session stays open. -/
theorem stale_unregister_evicts_newer_session :
    ∃ h1 h2, NewHub.Run [.register sessionOne, .register sessionTwo] = .ok h1
      ∧ h1.clients "u" = some sessionTwo
      ∧ h1.runStep (.unregister sessionOne) = .ok h2
      ∧ h2.clients "u" = none
      ∧ (h2.Send sessionTwo).closed = false
      ∧ (h2.Send sessionOne).closed = true := by
  refine ⟨_, _, rfl, by decide, rfl, by decide, by decide, by decide⟩

/-- Claim C2 (counterexample): it is not the case that processing `register s`
closes the outbound channel and the subscription of the session `p` it
displaces. -/
theorem register_does_not_close_displaced :
    ¬ ∀ (h : Hub) (p s : Client), h.clients p.UserID = some p → s ≠ p →
        s.UserID = p.UserID →
        ∃ h1, h.runStep (.register s) = .ok h1
          ∧ (h1.Send p).closed = true ∧ h1.Sub p = PubSub.closed := by
  intro hall
  obtain ⟨h1, hrun, hclosed, -⟩ :=
    hall { NewHub with clients := mapSet NewHub.clients "u" sessionOne }
      sessionOne sessionTwo (by decide) (by decide) (by decide)
  rw [runStep_register] at hrun
  cases hrun
  simp [NewHub] at hclosed

/-- Claim C2 (amended): processing `register s` while `p` is the entry for the
same identity replaces the entry by `s` and leaves the outbound channel and the
subscription of `p` exactly as they were. -/
theorem register_replaces_entry_only (h : Hub) (p s : Client)
    (_hp : h.clients p.UserID = some p) (hne : s ≠ p) (hu : s.UserID = p.UserID) :
    ∃ h1, h.runStep (.register s) = .ok h1
      ∧ h1.clients p.UserID = some s ∧ h1.clients p.UserID ≠ some p
      ∧ h1.Send p = h.Send p ∧ h1.Sub p = h.Sub p := by
  refine ⟨_, runStep_register h s, ?_, ?_, rfl, rfl⟩
  · simp [mapSet, hu]
  · simp [mapSet, hu, hne]

theorem register_replaces_entry_only_witness :
    ∃ h1, ({ NewHub with clients := mapSet NewHub.clients "u" sessionOne } : Hub).runStep
          (.register sessionTwo) = .ok h1
      ∧ h1.clients sessionOne.UserID = some sessionTwo
      ∧ h1.clients sessionOne.UserID ≠ some sessionOne
      ∧ h1.Send sessionOne
          = ({ NewHub with clients := mapSet NewHub.clients "u" sessionOne } : Hub).Send sessionOne
      ∧ h1.Sub sessionOne
          = ({ NewHub with clients := mapSet NewHub.clients "u" sessionOne } : Hub).Sub sessionOne :=
  register_replaces_entry_only _ sessionOne sessionTwo (by decide) (by decide) (by decide)

/-- Claim C3: after the hub loop processes `register s` the registry maps
`s.UserID` to `s` (one entry per identity, the registry being a map), and the
entry of every other identity is what it was. -/
theorem register_sets_entry (h : Hub) (s : Client) :
    ∃ h1, h.runStep (.register s) = .ok h1
      ∧ h1.clients s.UserID = some s
      ∧ ∀ u, u ≠ s.UserID → h1.clients u = h.clients u := by
  refine ⟨_, runStep_register h s, ?_, ?_⟩
  · simp [mapSet]
  · intro u hu
    simp [mapSet, hu]

/-- Claim C4 (counterexample): after `register`, `unregister` and a second
`register` of one session, the registry entry of its identity is exactly that
session while its outbound channel is already closed; with its subscription
open, processing `unregister` of it then panics on the `close` of the closed
channel, before the subscription is closed: the step does not produce the state
the claim describes. -/
theorem unregister_of_registered_closed_session_panics :
    ∃ h, NewHub.Run [.register sessionOne, .unregister sessionOne, .register sessionOne]
        = .ok h
      ∧ (h.subscribe sessionOne).clients sessionOne.UserID = some sessionOne
      ∧ ((h.subscribe sessionOne).Send sessionOne).closed = true
      ∧ (h.subscribe sessionOne).Sub sessionOne = PubSub.active
      ∧ (h.subscribe sessionOne).runStep (.unregister sessionOne)
          = .error Panic.closeOfClosedChannel := by
  refine ⟨_, rfl, by decide, by decide, by decide, rfl⟩

/-- Claim C4 (amended): when the registry entry for `s.UserID` is exactly `s` and
the outbound channel of `s` has not been closed yet, processing `unregister s`
removes that entry, closes the outbound channel of `s`, closes the subscription
of `s` when one is set, and leaves the entries of all other identities
unchanged. -/
theorem unregister_current_session (h : Hub) (s : Client)
    (hs : h.clients s.UserID = some s) (ho : (h.Send s).closed = false) :
    ∃ h1, h.runStep (.unregister s) = .ok h1
      ∧ h1.clients s.UserID = none
      ∧ (h1.Send s).closed = true
      ∧ (h.Sub s ≠ PubSub.nil → h1.Sub s = PubSub.closed)
      ∧ ∀ u, u ≠ s.UserID → h1.clients u = h.clients u := by
  refine ⟨_, runStep_unregister_present h s s hs ho, ?_, ?_, ?_, ?_⟩
  · simp [mapDelete]
  · simp
  · intro hsub
    cases hv : h.Sub s <;> simp_all [PubSub.Close]
  · intro u hu
    simp [mapDelete, hu]

theorem unregister_current_session_witness :
    ∃ h1, (({ NewHub with clients := mapSet NewHub.clients "u" sessionOne } : Hub).subscribe
          sessionOne).runStep (.unregister sessionOne) = .ok h1
      ∧ h1.clients sessionOne.UserID = none
      ∧ (h1.Send sessionOne).closed = true
      ∧ ((({ NewHub with clients := mapSet NewHub.clients "u" sessionOne } : Hub).subscribe
            sessionOne).Sub sessionOne ≠ PubSub.nil → h1.Sub sessionOne = PubSub.closed)
      ∧ ∀ u, u ≠ sessionOne.UserID → h1.clients u
          = (({ NewHub with clients := mapSet NewHub.clients "u" sessionOne } : Hub).subscribe
              sessionOne).clients u :=
  unregister_current_session _ sessionOne (by decide) (by decide)

theorem noRegisterThenUnregister_tail (c : Client) (ev : HubEvent) (rest : List HubEvent)
    (hn : noRegisterThenUnregister c (ev :: rest) = true) :
    noRegisterThenUnregister c rest = true := by
  cases ev <;> simp_all [noRegisterThenUnregister]

/-- Invariant behind the absence of a double close: every session whose channel
is closed is never unregistered again while an entry for its identity is
present, because no later registration for that identity precedes a later
unregister of it. -/
theorem run_ok_of_invariant (evs : List HubEvent) :
    ∀ h : Hub,
      (∀ c, (h.Send c).closed = true →
        noRegisterThenUnregister c evs = true
          ∧ (h.clients c.UserID ≠ none → HubEvent.unregister c ∉ evs)) →
      unregistersSafe evs = true → ∃ h1, h.Run evs = .ok h1 := by
  induction evs with
  | nil => intro h _ _; exact ⟨h, rfl⟩
  | cons ev rest ih =>
    intro h hinv hsafe
    cases ev with
    | register d =>
      have hstep := runStep_register h d
      simp only [Hub.Run, hstep]
      apply ih
      · intro c hc
        obtain ⟨h1, h2⟩ := hinv c hc
        refine ⟨noRegisterThenUnregister_tail c _ rest h1, ?_⟩
        intro hpres
        by_cases hu : c.UserID = d.UserID
        · simp only [noRegisterThenUnregister, Bool.and_eq_true, decide_eq_true_eq] at h1
          exact h1.1 hu.symm
        · have : h.clients c.UserID ≠ none := by
            simpa [mapSet, hu] using hpres
          exact fun hmem => h2 this (List.mem_cons_of_mem _ hmem)
      · simpa [unregistersSafe] using hsafe
    | unregister d =>
      simp only [unregistersSafe, Bool.and_eq_true] at hsafe
      cases hd : h.clients d.UserID with
      | none =>
        simp only [Hub.Run, runStep_unregister_absent h d hd]
        apply ih _ _ hsafe.2
        intro c hc
        obtain ⟨h1, h2⟩ := hinv c hc
        exact ⟨noRegisterThenUnregister_tail c _ rest h1,
          fun hpres hmem => h2 hpres (List.mem_cons_of_mem _ hmem)⟩
      | some x =>
        have hopen : (h.Send d).closed = false := by
          by_contra hcl
          have hcl1 : (h.Send d).closed = true := by simpa using hcl
          exact (hinv d hcl1).2 (by simp [hd]) (List.mem_cons_self _ _)
        simp only [Hub.Run, runStep_unregister_present h d x hd hopen]
        apply ih _ _ hsafe.2
        intro c hc
        by_cases hcd : c = d
        · subst hcd
          exact ⟨hsafe.1, fun hpres => absurd (by simp [mapDelete]) hpres⟩
        · have hc1 : (h.Send c).closed = true := by simpa [hcd] using hc
          obtain ⟨h1, h2⟩ := hinv c hc1
          refine ⟨noRegisterThenUnregister_tail c _ rest h1, ?_⟩
          intro hpres hmem
          have : h.clients c.UserID ≠ none := by
            intro hnone
            apply hpres
            simp [mapDelete, hnone]
          exact h2 this (List.mem_cons_of_mem _ hmem)

/-- Claim C5 (counterexample): registering a session again after its unregister
and unregistering it once more makes the hub loop execute `close` on the
already closed outbound channel: the loop panics. -/
theorem second_unregister_after_reregister_panics :
    NewHub.Run [.register sessionOne, .unregister sessionOne,
        .register sessionOne, .unregister sessionOne]
      = .error Panic.closeOfClosedChannel := rfl

/-- Claim C5 (amended): starting from a hub in which no outbound channel is
closed, every finite sequence of register and unregister submissions in which no
registration for the identity of a session is processed between two unregisters
of that session runs without the close-of-closed-channel panic, so that no
outbound channel is closed a second time; repeated unregisters of a session and
re-registration of an identity are both allowed. -/
theorem run_never_closes_twice (h : Hub) (evs : List HubEvent)
    (hopen : ∀ c, (h.Send c).closed = false) (hsafe : unregistersSafe evs = true) :
    ∃ h1, h.Run evs = .ok h1 := by
  apply run_ok_of_invariant evs h _ hsafe
  intro c hc
  rw [hopen c] at hc
  exact absurd hc (by decide)

theorem run_never_closes_twice_witness :
    (∀ c, (NewHub.Send c).closed = false)
      ∧ unregistersSafe [.register sessionOne, .unregister sessionOne,
          .unregister sessionOne, .register sessionTwo, .unregister sessionTwo,
          .unregister sessionTwo] = true
      ∧ ∃ h1, NewHub.Run [.register sessionOne, .unregister sessionOne,
          .unregister sessionOne, .register sessionTwo, .unregister sessionTwo,
          .unregister sessionTwo] = .ok h1 :=
  ⟨fun _ => rfl, by decide,
    run_never_closes_twice NewHub _ (fun _ => rfl) (by decide)⟩

/-- Claim C6 (fails on the code): session one registers and subscribes, session
two of the same user registers and subscribes, session two is unregistered, then
session one is unregistered. The unregister of session one finds no registry
entry and does nothing: its outbound channel is still open and its subscription
still active afterwards. -/
theorem unregister_after_sibling_leaves_session_open :
    ∃ h1 h2 h3 h4, NewHub.Run [.register sessionOne] = .ok h1
      ∧ (h1.subscribe sessionOne).Run [.register sessionTwo] = .ok h2
      ∧ (h2.subscribe sessionTwo).Run [.unregister sessionTwo] = .ok h3
      ∧ h3.runStep (.unregister sessionOne) = .ok h4
      ∧ (h3.Send sessionTwo).closed = true
      ∧ h4.clients "u" = none
      ∧ (h4.Send sessionOne).closed = false
      ∧ h4.Sub sessionOne = PubSub.active := by
  refine ⟨_, _, _, _, rfl, rfl, rfl, rfl, by decide, by decide, by decide, by decide⟩

/-! ## Theorems: identifiers -/

theorem utf8Bytes_hexDigit (n : Nat) :
    utf8Bytes (hexDigit n) = [(hexDigit n).toNat] := by
  by_cases hn : n < 16
  · interval_cases n <;> decide
  · have hz : hexDigit n = '0' := by
      unfold hexDigit
      apply List.getD_eq_default
      simpa [hextable] using hn
    rw [hz]; decide

set_option maxRecDepth 100000 in
theorem xtob_hexDigit : ∀ b : Fin 256,
    xtob (hexDigit (b.val / 16)).toNat (hexDigit (b.val % 16)).toNat = (b, true) := by
  decide

theorem list_length_sixteen {α : Type} (l : List α) (hl : l.length = 16) :
    ∃ a0 a1 a2 a3 a4 a5 a6 a7 a8 a9 a10 a11 a12 a13 a14 a15,
      l = [a0, a1, a2, a3, a4, a5, a6, a7, a8, a9, a10, a11, a12, a13, a14, a15] := by
  match l, hl with
  | [a0, a1, a2, a3, a4, a5, a6, a7, a8, a9, a10, a11, a12, a13, a14, a15], _ =>
    exact ⟨a0, a1, a2, a3, a4, a5, a6, a7, a8, a9, a10, a11, a12, a13, a14, a15, rfl⟩

set_option maxRecDepth 100000 in
set_option maxHeartbeats 4000000 in
/-- Parsing the string form of an identifier gives the identifier back, without
error. -/
theorem Parse_String (u : UUID) : Parse u.String = (u, true) := by
  obtain ⟨l, hl⟩ := u
  obtain ⟨a0, a1, a2, a3, a4, a5, a6, a7, a8, a9, a10, a11, a12, a13, a14, a15, rfl⟩ :=
    list_length_sixteen l hl
  have hd : utf8Bytes '-' = [45] := by decide
  simp [Parse, UUID.String, Mathlib.Vector.toList, goBytes, encodeByte, utf8Bytes_hexDigit,
    hd, parseDashed, parsePairs, hexOffsets, xtob_hexDigit, UUID.ofList]

theorem MustParse_String (u : UUID) : MustParse u.String = .ok u := by
  simp [MustParse, Parse_String]

/-! ## Theorems: the store operations used by the read loop -/

/-- A room returned by `FindOrCreateChatRoom` is the scan of a row that is in
the store afterwards and whose two participants are the two arguments; the
messages are untouched. -/
theorem FindOrCreateChatRoom_ok (db : DB) (env : RoomEnv) (a b : UUID) (room : ChatRoom)
    (h : (FindOrCreateChatRoom db env a b).1 = .ok room) :
    ∃ row, room = scanRoom row ∧ row ∈ (FindOrCreateChatRoom db env a b).2.ChatRoom
      ∧ ((row.user1 = a ∧ row.user2 = b) ∨ (row.user1 = b ∧ row.user2 = a)) := by
  obtain ⟨ord, hord⟩ : ∃ ord : UUID × UUID,
      ord = if stringGt a.String b.String then (b, a) else (a, b) := ⟨_, rfl⟩
  have hcases : (ord.1 = a ∧ ord.2 = b) ∨ (ord.1 = b ∧ ord.2 = a) := by
    rw [hord]; split
    · exact Or.inr ⟨rfl, rfl⟩
    · exact Or.inl ⟨rfl, rfl⟩
  unfold FindOrCreateChatRoom at h ⊢
  simp only [← hord] at h ⊢
  cases hsel : env.selectErr
  case true => simp [hsel] at h
  case false =>
    simp only [hsel, Bool.false_eq_true, if_false] at h ⊢
    cases hf : db.ChatRoom.find? (fun r => decide (r.user1 = ord.1 ∧ r.user2 = ord.2)) with
    | some row =>
      simp only [hf] at h ⊢
      have hmem := List.mem_of_find?_eq_some hf
      have hp := List.find?_some hf
      simp only [decide_eq_true_eq] at hp
      refine ⟨row, ?_, hmem, ?_⟩
      · simpa using h.symm
      · rcases hcases with ⟨h1, h2⟩ | ⟨h1, h2⟩
        · exact Or.inl ⟨hp.1.trans h1, hp.2.trans h2⟩
        · exact Or.inr ⟨hp.1.trans h1, hp.2.trans h2⟩
    | none =>
      simp only [hf] at h ⊢
      cases hins : env.insertErr
      case true => simp [hins] at h
      case false =>
        simp only [hins, Bool.false_eq_true, if_false] at h ⊢
        refine ⟨{ id := env.roomID, user1 := ord.1, user2 := ord.2, created_at := env.now,
                  last_message_at := none,
                  constraint_user1_user2 := ord.1.String ++ ":" ++ ord.2.String }, ?_, ?_, ?_⟩
        · simpa using h.symm
        · simp
        · exact hcases

theorem FindOrCreateChatRoom_Messages (db : DB) (env : RoomEnv) (a b : UUID) :
    (FindOrCreateChatRoom db env a b).2.Messages = db.Messages := by
  unfold FindOrCreateChatRoom
  dsimp only
  repeat' split
  all_goals rfl

theorem FindOrCreateChatRoom_succeeds (db : DB) (env : RoomEnv) (a b : UUID)
    (h1 : env.selectErr = false) (h2 : env.insertErr = false) :
    ∃ room, (FindOrCreateChatRoom db env a b).1 = .ok room := by
  unfold FindOrCreateChatRoom
  simp only [h1, h2, Bool.false_eq_true, if_false]
  split
  · exact ⟨_, rfl⟩
  · exact ⟨_, rfl⟩

theorem CreateMessage_error (db : DB) (env : MsgEnv) (r s : UUID) (content : String)
    (e : DBError) (h : (CreateMessage db env r s content).1 = .error e) :
    (CreateMessage db env r s content).2 = db := by
  unfold CreateMessage at h ⊢
  repeat' split
  all_goals first | rfl | simp_all

/-- A message returned by `CreateMessage` is the scan of the row appended to
table "Messages"; the rooms keep their identifiers and participants. -/
theorem CreateMessage_ok (db : DB) (env : MsgEnv) (r s : UUID) (content : String)
    (dbMsg : ChatMessage) (h : (CreateMessage db env r s content).1 = .ok dbMsg) :
    ∃ row : MessagesRow,
      row = { id := env.msgID, chat_room_id := r, sent_from := s, content := content,
              sent_at := env.sentAt, read_status := false }
      ∧ dbMsg = scanMessage row
      ∧ (CreateMessage db env r s content).2.Messages = db.Messages ++ [row]
      ∧ ∀ x ∈ db.ChatRoom, ∃ y ∈ (CreateMessage db env r s content).2.ChatRoom,
          y.id = x.id ∧ y.user1 = x.user1 ∧ y.user2 = x.user2 := by
  unfold CreateMessage at h ⊢
  by_cases h1 : env.beginErr = true
  · simp [h1] at h
  by_cases h2 : env.insertErr = true
  · simp [h1, h2] at h
  by_cases h3 : env.updateErr = true
  · simp [h1, h2, h3] at h
  by_cases h4 : env.commitErr = true
  · simp [h1, h2, h3, h4] at h
  simp only [h1, h2, h3, h4] at h ⊢
  refine ⟨_, rfl, ?_, ?_, ?_⟩
  · simpa using h.symm
  · simp
  · intro x hx
    refine ⟨_, List.mem_map_of_mem _ hx, ?_⟩
    split <;> simp

theorem CreateMessage_succeeds (db : DB) (env : MsgEnv) (r s : UUID) (content : String)
    (h1 : env.beginErr = false) (h2 : env.insertErr = false) (h3 : env.updateErr = false)
    (h4 : env.commitErr = false) : ∃ m, (CreateMessage db env r s content).1 = .ok m := by
  unfold CreateMessage
  simp [h1, h2, h3, h4]

/-! ## Theorems: the inbound-read loop -/

theorem MustParse_room (db : DB) (env : RoomEnv) (a b : UUID) (room : ChatRoom)
    (h : (FindOrCreateChatRoom db env a b).1 = .ok room) :
    MustParse room.Id = .ok (Parse room.Id).1 ∧ (Parse room.Id).1.String = room.Id := by
  obtain ⟨row, rfl, -, -⟩ := FindOrCreateChatRoom_ok db env a b room h
  simp [scanRoom, MustParse, Parse_String]

/-- The run of the loop body on a frame that decodes, whose room is found or
created, whose message is stored and whose payload is encoded. -/
theorem frame_of_persisted (json : JSON) (c : Client) (w : World) (env : FrameEnv)
    (message : Bytes) (msg : IncomingChatMessage) (room : ChatRoom) (dbMsg : ChatMessage)
    (payload : Bytes)
    (hdec : json.Unmarshal message = some msg)
    (hroom : (FindOrCreateChatRoom w.db env.room (Parse c.UserID).1
        (Parse msg.RecipientID).1).1 = .ok room)
    (hmsg : (CreateMessage
        (FindOrCreateChatRoom w.db env.room (Parse c.UserID).1 (Parse msg.RecipientID).1).2
        env.msg (Parse room.Id).1 (Parse c.UserID).1 msg.Content).1 = .ok dbMsg)
    (hmar : json.Marshal (outgoingMsg c dbMsg) = some payload) :
    ReadPump.frame json c w env message =
      .ok { db := (CreateMessage
              (FindOrCreateChatRoom w.db env.room (Parse c.UserID).1
                (Parse msg.RecipientID).1).2
              env.msg (Parse room.Id).1 (Parse c.UserID).1 msg.Content).2
            trace := w.trace ++
              [Action.FindOrCreateChatRoom (Parse c.UserID).1 (Parse msg.RecipientID).1,
               Action.CreateMessage (Parse room.Id).1 (Parse c.UserID).1 msg.Content,
               Action.Publish (Hub.userChannel msg.RecipientID) payload env.publishRecipientErr,
               Action.Publish (Hub.userChannel c.UserID) payload env.publishSenderErr] } := by
  have hmp := (MustParse_room _ _ _ _ room hroom).1
  unfold ReadPump.frame
  simp only [hdec, hroom, hmp, hmsg, hmar, Hub.PublishToUser, List.append_assoc,
    List.singleton_append, List.cons_append, List.nil_append]

/-- A run of the loop body that ends normally either leaves table "Messages" as
it was or went through a successful decode, room lookup and message insert. -/
theorem frame_cases (json : JSON) (c : Client) (w w1 : World) (env : FrameEnv)
    (message : Bytes) (h : ReadPump.frame json c w env message = .ok w1) :
    w1.db.Messages = w.db.Messages ∨
      ∃ msg room dbMsg, json.Unmarshal message = some msg
        ∧ (FindOrCreateChatRoom w.db env.room (Parse c.UserID).1
            (Parse msg.RecipientID).1).1 = .ok room
        ∧ (CreateMessage
            (FindOrCreateChatRoom w.db env.room (Parse c.UserID).1
              (Parse msg.RecipientID).1).2
            env.msg (Parse room.Id).1 (Parse c.UserID).1 msg.Content).1 = .ok dbMsg := by
  unfold ReadPump.frame at h
  split at h
  · left
    cases h; rfl
  · rename_i msg hdec
    dsimp only at h
    split at h
    · left
      cases h
      exact FindOrCreateChatRoom_Messages _ _ _ _
    · rename_i room hroom
      have hmp := (MustParse_room _ _ _ _ room hroom).1
      rw [hmp] at h
      dsimp only at h
      split at h
      · rename_i e he
        left
        cases h
        dsimp only
        rw [CreateMessage_error _ _ _ _ _ e he]
        exact FindOrCreateChatRoom_Messages _ _ _ _
      · rename_i dbMsg hmsg
        right
        exact ⟨msg, room, dbMsg, hdec, hroom, hmsg⟩

/-- Claim C7: for every frame that decodes, processed while the store and the
bus succeed (and the encoder returns a payload, as encoding/json does for a
struct of strings), the loop body makes exactly one `CreateMessage` call, which
adds one message to the store, and exactly two publishes: first on the channel
of the recipient, then on the channel of the sender, both successful. -/
theorem readPump_frame_one_message_two_publishes (json : JSON) (c : Client) (w : World)
    (env : FrameEnv) (message : Bytes) (msg : IncomingChatMessage)
    (hdec : json.Unmarshal message = some msg)
    (hmar : ∀ m, (json.Marshal m).isSome = true)
    (hdb : env.persistenceOK = true) (hbus : env.busOK = true) :
    ∃ w1 acts payload, ReadPump.frame json c w env message = .ok w1
      ∧ w1.trace = w.trace ++ acts
      ∧ (acts.filter Action.isCreateMessage).length = 1
      ∧ acts.filter Action.isPublish =
          [Action.Publish (Hub.userChannel msg.RecipientID) payload false,
           Action.Publish (Hub.userChannel c.UserID) payload false]
      ∧ w1.db.Messages.length = w.db.Messages.length + 1 := by
  simp only [FrameEnv.persistenceOK, FrameEnv.busOK, Bool.and_eq_true, Bool.not_eq_true']
    at hdb hbus
  obtain ⟨⟨⟨⟨⟨h1, h2⟩, h3⟩, h4⟩, h5⟩, h6⟩ := hdb
  obtain ⟨room, hroom⟩ := FindOrCreateChatRoom_succeeds w.db env.room (Parse c.UserID).1
    (Parse msg.RecipientID).1 h1 h2
  obtain ⟨dbMsg, hmsg⟩ := CreateMessage_succeeds
    (FindOrCreateChatRoom w.db env.room (Parse c.UserID).1 (Parse msg.RecipientID).1).2
    env.msg (Parse room.Id).1 (Parse c.UserID).1 msg.Content h3 h4 h5 h6
  obtain ⟨payload, hpay⟩ := Option.isSome_iff_exists.mp (hmar (outgoingMsg c dbMsg))
  obtain ⟨row, -, -, hrows, -⟩ := CreateMessage_ok _ _ _ _ _ dbMsg hmsg
  refine ⟨_, _, payload, frame_of_persisted json c w env message msg room dbMsg payload
    hdec hroom hmsg hpay, rfl, ?_, ?_, ?_⟩
  · simp [Action.isCreateMessage]
  · simp [Action.isPublish, hbus.1, hbus.2]
  · simp only [hrows, FindOrCreateChatRoom_Messages, List.length_append, List.length_singleton]

theorem readPump_frame_one_message_two_publishes_witness :
    ∃ w1 acts payload,
      ReadPump.frame demoJSON (ServeWs.client 1 userA) emptyWorld demoEnv
          "a0eebc99-9c0b-4ef8-bb6d-6bb9bd380a11|hi" = .ok w1
      ∧ w1.trace = emptyWorld.trace ++ acts
      ∧ (acts.filter Action.isCreateMessage).length = 1
      ∧ acts.filter Action.isPublish =
          [Action.Publish
              (Hub.userChannel
                (IncomingChatMessage.mk "a0eebc99-9c0b-4ef8-bb6d-6bb9bd380a11" "hi").RecipientID)
              payload false,
           Action.Publish (Hub.userChannel (ServeWs.client 1 userA).UserID) payload false]
      ∧ w1.db.Messages.length = emptyWorld.db.Messages.length + 1 :=
  readPump_frame_one_message_two_publishes demoJSON (ServeWs.client 1 userA) emptyWorld
    demoEnv "a0eebc99-9c0b-4ef8-bb6d-6bb9bd380a11|hi"
    { RecipientID := "a0eebc99-9c0b-4ef8-bb6d-6bb9bd380a11", Content := "hi" }
    (by decide) (fun _ => rfl) (by decide) (by decide)

set_option maxRecDepth 100000 in
/-- Claim C8 (fails on the code): the recipient_id
`A0EEBC99-9C0B-4EF8-BB6D-6BB9BD380A11` parses, without error, as the identity
`userB`, whose session subscribes to `user:a0eebc99-9c0b-4ef8-bb6d-6bb9bd380a11`;
the read loop persists the frame and publishes for the recipient on
`user:A0EEBC99-9C0B-4EF8-BB6D-6BB9BD380A11`, a different channel. -/
theorem uppercase_recipient_misses_subscribed_channel :
    Parse "A0EEBC99-9C0B-4EF8-BB6D-6BB9BD380A11" = (userB, true)
      ∧ (ServeWs.client 2 userB).subscribedChannel
          = "user:a0eebc99-9c0b-4ef8-bb6d-6bb9bd380a11"
      ∧ (∃ w1 payload,
          ReadPump.frame demoJSON (ServeWs.client 1 userA) emptyWorld demoEnv
              "A0EEBC99-9C0B-4EF8-BB6D-6BB9BD380A11|hi" = .ok w1
          ∧ w1.db.Messages.map (fun m => (m.sent_from, m.content)) = [(userA, "hi")]
          ∧ w1.db.ChatRoom.map (fun r => (r.user1, r.user2)) = [(userA, userB)]
          ∧ w1.trace.filter Action.isPublish =
              [Action.Publish "user:A0EEBC99-9C0B-4EF8-BB6D-6BB9BD380A11" payload false,
               Action.Publish "user:11111111-1111-1111-1111-111111111111" payload false])
      ∧ Hub.userChannel "A0EEBC99-9C0B-4EF8-BB6D-6BB9BD380A11"
          ≠ (ServeWs.client 2 userB).subscribedChannel := by
  refine ⟨by decide, by decide,
    ⟨_, "33333333-3333-3333-3333-333333333333|11111111-1111-1111-1111-111111111111|hi|t1|22222222-2222-2222-2222-222222222222",
      rfl, by decide, by decide, by decide⟩, by decide⟩

/-- Claim C9: for every frame whose run stores a message, the outbound message
the loop builds has `message_id` the identifier of the stored row, `sender_id`
the identity of the session, `content` the stored body, `sent_at` the stored
timestamp and `chat_room_id` the room of the stored row, and the two publishes
(recipient, then sender) carry one and the same encoding of it. -/
theorem readPump_frame_outgoing_message (json : JSON) (c : Client) (w w1 : World)
    (env : FrameEnv) (message : Bytes)
    (hmar : ∀ m, (json.Marshal m).isSome = true)
    (hrun : ReadPump.frame json c w env message = .ok w1)
    (hstored : w1.db.Messages ≠ w.db.Messages) :
    ∃ (msg : IncomingChatMessage) (row : MessagesRow) (out : OutgoingChatMessage)
      (payload : Bytes) (a1 a2 : Action),
      json.Unmarshal message = some msg
      ∧ w1.db.Messages = w.db.Messages ++ [row]
      ∧ out.MessageID = row.id.String
      ∧ out.SenderID = c.UserID
      ∧ out.Content = row.content
      ∧ out.SentAt = row.sent_at
      ∧ out.ChatRoomID = row.chat_room_id.String
      ∧ json.Marshal out = some payload
      ∧ w1.trace = w.trace ++
          [a1, a2,
           Action.Publish (Hub.userChannel msg.RecipientID) payload env.publishRecipientErr,
           Action.Publish (Hub.userChannel c.UserID) payload env.publishSenderErr] := by
  rcases frame_cases json c w w1 env message hrun with hsame | ⟨msg, room, dbMsg, hdec, hroom, hmsg⟩
  · exact absurd hsame hstored
  · obtain ⟨payload, hpay⟩ := Option.isSome_iff_exists.mp (hmar (outgoingMsg c dbMsg))
    have hrun2 := frame_of_persisted json c w env message msg room dbMsg payload
      hdec hroom hmsg hpay
    rw [hrun] at hrun2
    cases hrun2
    obtain ⟨row, -, hscan, hrows, -⟩ := CreateMessage_ok _ _ _ _ _ dbMsg hmsg
    subst hscan
    refine ⟨msg, row, outgoingMsg c (scanMessage row), payload, _, _, hdec, ?_,
      rfl, rfl, rfl, rfl, rfl, hpay, rfl⟩
    simp only [hrows, FindOrCreateChatRoom_Messages]

theorem readPump_frame_outgoing_message_witness :
    ∃ (msg : IncomingChatMessage) (row : MessagesRow) (out : OutgoingChatMessage)
      (payload : Bytes) (a1 a2 : Action),
      demoJSON.Unmarshal "a0eebc99-9c0b-4ef8-bb6d-6bb9bd380a11|hi" = some msg
      ∧ (CreateMessage
            (FindOrCreateChatRoom emptyWorld.db demoEnv.room userA userB).2 demoEnv.msg
            demoEnv.room.roomID userA "hi").2.Messages = emptyWorld.db.Messages ++ [row]
      ∧ out.MessageID = row.id.String
      ∧ out.SenderID = (ServeWs.client 1 userA).UserID
      ∧ out.Content = row.content
      ∧ out.SentAt = row.sent_at
      ∧ out.ChatRoomID = row.chat_room_id.String
      ∧ demoJSON.Marshal out = some payload
      ∧ emptyWorld.trace ++
          [Action.FindOrCreateChatRoom userA userB,
           Action.CreateMessage demoEnv.room.roomID userA "hi",
           Action.Publish "user:a0eebc99-9c0b-4ef8-bb6d-6bb9bd380a11"
             "33333333-3333-3333-3333-333333333333|11111111-1111-1111-1111-111111111111|hi|t1|22222222-2222-2222-2222-222222222222"
             false,
           Action.Publish "user:11111111-1111-1111-1111-111111111111"
             "33333333-3333-3333-3333-333333333333|11111111-1111-1111-1111-111111111111|hi|t1|22222222-2222-2222-2222-222222222222"
             false]
          = emptyWorld.trace ++
          [a1, a2,
           Action.Publish (Hub.userChannel msg.RecipientID) payload
             demoEnv.publishRecipientErr,
           Action.Publish (Hub.userChannel (ServeWs.client 1 userA).UserID) payload
             demoEnv.publishSenderErr] :=
  readPump_frame_outgoing_message demoJSON (ServeWs.client 1 userA) emptyWorld
    { db := (CreateMessage
              (FindOrCreateChatRoom emptyWorld.db demoEnv.room userA userB).2 demoEnv.msg
              demoEnv.room.roomID userA "hi").2
      trace := emptyWorld.trace ++
          [Action.FindOrCreateChatRoom userA userB,
           Action.CreateMessage demoEnv.room.roomID userA "hi",
           Action.Publish "user:a0eebc99-9c0b-4ef8-bb6d-6bb9bd380a11"
             "33333333-3333-3333-3333-333333333333|11111111-1111-1111-1111-111111111111|hi|t1|22222222-2222-2222-2222-222222222222"
             false,
           Action.Publish "user:11111111-1111-1111-1111-111111111111"
             "33333333-3333-3333-3333-333333333333|11111111-1111-1111-1111-111111111111|hi|t1|22222222-2222-2222-2222-222222222222"
             false] }
    demoEnv "a0eebc99-9c0b-4ef8-bb6d-6bb9bd380a11|hi"
    (fun _ => rfl) (by rfl) (by decide)

/-- Claim C10: for every frame that decodes to recipient_id and content on the
session `ServeWs` built for user `A`, processed while the store succeeds, the
message the loop stores has sender `A`, body the content of the frame and room
the room returned by `FindOrCreateChatRoom` for `A` and the recipient; the store
then holds a room with that identifier of which `A` is one of the two
participants. -/
theorem readPump_frame_persisted_message (json : JSON) (ptr : Nat) (A : UUID) (w : World)
    (env : FrameEnv) (message : Bytes) (msg : IncomingChatMessage)
    (hdec : json.Unmarshal message = some msg)
    (hdb : env.persistenceOK = true) :
    ∃ (w1 : World) (room : ChatRoom) (row : MessagesRow),
      ReadPump.frame json (ServeWs.client ptr A) w env message = .ok w1
      ∧ (FindOrCreateChatRoom w.db env.room A (Parse msg.RecipientID).1).1 = .ok room
      ∧ w1.db.Messages = w.db.Messages ++ [row]
      ∧ row.sent_from = A
      ∧ row.content = msg.Content
      ∧ row.chat_room_id.String = room.Id
      ∧ (room.User1 = A.String ∨ room.User2 = A.String)
      ∧ ∃ r ∈ w1.db.ChatRoom, r.id = row.chat_room_id ∧ (r.user1 = A ∨ r.user2 = A) := by
  simp only [FrameEnv.persistenceOK, Bool.and_eq_true, Bool.not_eq_true'] at hdb
  obtain ⟨⟨⟨⟨⟨h1, h2⟩, h3⟩, h4⟩, h5⟩, h6⟩ := hdb
  have hA : (Parse (ServeWs.client ptr A).UserID).1 = A := by
    simp [ServeWs.client, Parse_String]
  obtain ⟨room, hroom⟩ := FindOrCreateChatRoom_succeeds w.db env.room A
    (Parse msg.RecipientID).1 h1 h2
  obtain ⟨dbMsg, hmsg⟩ := CreateMessage_succeeds
    (FindOrCreateChatRoom w.db env.room A (Parse msg.RecipientID).1).2
    env.msg (Parse room.Id).1 A msg.Content h3 h4 h5 h6
  obtain ⟨row, hrow, -, hrows, hkeep⟩ := CreateMessage_ok _ _ _ _ _ dbMsg hmsg
  obtain ⟨rr, hscan, hmem, hpart⟩ := FindOrCreateChatRoom_ok _ _ _ _ room hroom
  have hmp := MustParse_room _ _ _ _ room hroom
  have hrun : ReadPump.frame json (ServeWs.client ptr A) w env message =
      .ok { db := (CreateMessage
              (FindOrCreateChatRoom w.db env.room A (Parse msg.RecipientID).1).2
              env.msg (Parse room.Id).1 A msg.Content).2
            trace := (ReadPump.frame json (ServeWs.client ptr A) w env message).toOption.elim
              [] World.trace } := by
    unfold ReadPump.frame
    simp only [hdec, hA, hroom, hmp.1, hmsg]
    cases json.Marshal (outgoingMsg (ServeWs.client ptr A) dbMsg) <;>
      simp [Hub.PublishToUser, Except.toOption]
  obtain ⟨y, hy, hyid, hy1, hy2⟩ := hkeep rr hmem
  have hrid : (Parse room.Id).1 = rr.id := by
    rw [hscan]; simp [scanRoom, Parse_String]
  refine ⟨_, room, row, hrun, hroom, ?_, ?_, ?_, ?_, ?_, ?_⟩
  · simp only [hrows, FindOrCreateChatRoom_Messages]
  · rw [hrow]
  · rw [hrow]
  · rw [hrow]; exact hmp.2
  · rw [hscan]
    rcases hpart with ⟨hp, -⟩ | ⟨-, hp⟩
    · left; simp [scanRoom, hp]
    · right; simp [scanRoom, hp]
  · refine ⟨y, hy, ?_, ?_⟩
    · rw [hyid, hrow, hrid]
    · rw [hy1, hy2]
      rcases hpart with ⟨hp, -⟩ | ⟨-, hp⟩
      · exact Or.inl hp
      · exact Or.inr hp

theorem readPump_frame_persisted_message_witness :
    ∃ (w1 : World) (room : ChatRoom) (row : MessagesRow),
      ReadPump.frame demoJSON (ServeWs.client 1 userA) emptyWorld demoEnv
          "a0eebc99-9c0b-4ef8-bb6d-6bb9bd380a11|hi" = .ok w1
      ∧ (FindOrCreateChatRoom emptyWorld.db demoEnv.room userA
          (Parse (IncomingChatMessage.mk "a0eebc99-9c0b-4ef8-bb6d-6bb9bd380a11"
            "hi").RecipientID).1).1 = .ok room
      ∧ w1.db.Messages = emptyWorld.db.Messages ++ [row]
      ∧ row.sent_from = userA
      ∧ row.content = (IncomingChatMessage.mk "a0eebc99-9c0b-4ef8-bb6d-6bb9bd380a11"
          "hi").Content
      ∧ row.chat_room_id.String = room.Id
      ∧ (room.User1 = userA.String ∨ room.User2 = userA.String)
      ∧ ∃ r ∈ w1.db.ChatRoom, r.id = row.chat_room_id ∧ (r.user1 = userA ∨ r.user2 = userA) :=
  readPump_frame_persisted_message demoJSON 1 userA emptyWorld demoEnv
    "a0eebc99-9c0b-4ef8-bb6d-6bb9bd380a11|hi"
    { RecipientID := "a0eebc99-9c0b-4ef8-bb6d-6bb9bd380a11", Content := "hi" }
    (by decide) (by decide)

/-! ## Theorems: the read loop on frames that are dropped or fail -/

theorem FindOrCreateChatRoom_unfold (db : DB) (env : RoomEnv) (a b : UUID) :
    FindOrCreateChatRoom db env a b =
      if env.selectErr then (.error .failed, db)
      else
        match db.ChatRoom.find? (roomMatches (orderedIDs a b)) with
        | some row => (.ok (scanRoom row), db)
        | none =>
            if env.insertErr then (.error .failed, db)
            else
              (.ok (scanRoom (newRoomRow env (orderedIDs a b))),
                { db with ChatRoom := db.ChatRoom ++ [newRoomRow env (orderedIDs a b)] }) :=
  rfl

/-- The three outcomes of `FindOrCreateChatRoom`: an error without any change,
the first stored row of the ordered pair without any change, or a new row
appended when no row of the ordered pair is stored. -/
theorem FindOrCreateChatRoom_cases (db : DB) (env : RoomEnv) (a b : UUID) :
    FindOrCreateChatRoom db env a b = (.error .failed, db)
    ∨ (∃ row, db.ChatRoom.find? (roomMatches (orderedIDs a b)) = some row
        ∧ FindOrCreateChatRoom db env a b = (.ok (scanRoom row), db))
    ∨ (db.ChatRoom.find? (roomMatches (orderedIDs a b)) = none
        ∧ FindOrCreateChatRoom db env a b =
            (.ok (scanRoom (newRoomRow env (orderedIDs a b))),
              { db with ChatRoom := db.ChatRoom ++ [newRoomRow env (orderedIDs a b)] })) := by
  rw [FindOrCreateChatRoom_unfold]
  cases hsel : env.selectErr
  case true => left; simp
  case false =>
    cases hf : db.ChatRoom.find? (roomMatches (orderedIDs a b)) with
    | some row => right; left; exact ⟨row, rfl, by simp⟩
    | none =>
      cases hins : env.insertErr
      case true => left; simp
      case false => right; right; exact ⟨rfl, by simp⟩

theorem FindOrCreateChatRoom_error (db : DB) (env : RoomEnv) (a b : UUID) (e : DBError)
    (h : (FindOrCreateChatRoom db env a b).1 = .error e) :
    (FindOrCreateChatRoom db env a b).2 = db := by
  rcases FindOrCreateChatRoom_cases db env a b with h1 | ⟨row, -, h1⟩ | ⟨-, h1⟩
  · rw [h1]
  · rw [h1]
  · rw [h1] at h; cases h

theorem Parse_empty : Parse "" = (UUID.Nil, false) := by decide

theorem ReadPump_message (json : JSON) (c : Client) (w w1 : World) (env : FrameEnv)
    (message : Bytes) (rest : List ReadResult)
    (h : ReadPump.frame json c w env message = .ok w1) :
    ReadPump json c w (.message message env :: rest) = ReadPump json c w1 rest := by
  simp [ReadPump, h]

/-- The run of the loop body on a frame that decodes and whose room lookup
returns an error. -/
theorem frame_of_room_error (json : JSON) (c : Client) (w : World) (env : FrameEnv)
    (message : Bytes) (msg : IncomingChatMessage) (e : DBError)
    (hdec : json.Unmarshal message = some msg)
    (hroom : (FindOrCreateChatRoom w.db env.room (Parse c.UserID).1
        (Parse msg.RecipientID).1).1 = .error e) :
    ReadPump.frame json c w env message =
      .ok { db := w.db
            trace := w.trace ++
              [Action.FindOrCreateChatRoom (Parse c.UserID).1 (Parse msg.RecipientID).1] } := by
  have hdb := FindOrCreateChatRoom_error _ _ _ _ e hroom
  unfold ReadPump.frame
  simp only [hdec, hroom, hdb]

/-- The run of the loop body on a frame that decodes, whose room is found or
created and whose message insert returns an error. -/
theorem frame_of_message_error (json : JSON) (c : Client) (w : World) (env : FrameEnv)
    (message : Bytes) (msg : IncomingChatMessage) (room : ChatRoom) (e : DBError)
    (hdec : json.Unmarshal message = some msg)
    (hroom : (FindOrCreateChatRoom w.db env.room (Parse c.UserID).1
        (Parse msg.RecipientID).1).1 = .ok room)
    (hmsg : (CreateMessage
        (FindOrCreateChatRoom w.db env.room (Parse c.UserID).1 (Parse msg.RecipientID).1).2
        env.msg (Parse room.Id).1 (Parse c.UserID).1 msg.Content).1 = .error e) :
    ReadPump.frame json c w env message =
      .ok { db := (FindOrCreateChatRoom w.db env.room (Parse c.UserID).1
              (Parse msg.RecipientID).1).2
            trace := w.trace ++
              [Action.FindOrCreateChatRoom (Parse c.UserID).1 (Parse msg.RecipientID).1,
               Action.CreateMessage (Parse room.Id).1 (Parse c.UserID).1 msg.Content] } := by
  have hmp := (MustParse_room _ _ _ _ room hroom).1
  have hdb := CreateMessage_error _ _ _ _ _ e hmsg
  unfold ReadPump.frame
  simp only [hdec, hroom, hmp, hmsg, hdb, List.append_assoc, List.singleton_append]


/-- Claim C11 (counterexample): the frame `|hi` decodes to an empty recipient_id
and the content `hi`; with the store and the bus succeeding the read loop
creates a room between the nil identity and the sender, stores the message in
it and publishes twice, the first time on channel `user:`. -/
theorem empty_recipient_is_stored_and_published :
    demoJSON.Unmarshal "|hi" = some { RecipientID := "", Content := "hi" }
      ∧ ∃ w1 payload,
          ReadPump.frame demoJSON (ServeWs.client 1 userA) emptyWorld demoEnv "|hi" = .ok w1
          ∧ w1.db.ChatRoom.map (fun r => (r.user1, r.user2)) = [(UUID.Nil, userA)]
          ∧ w1.db.Messages.map (fun m => (m.sent_from, m.content)) = [(userA, "hi")]
          ∧ w1.trace.filter Action.isPublish =
              [Action.Publish "user:" payload false,
               Action.Publish "user:11111111-1111-1111-1111-111111111111" payload false] := by
  refine ⟨by decide,
    ⟨_, "33333333-3333-3333-3333-333333333333|11111111-1111-1111-1111-111111111111|hi|t1|22222222-2222-2222-2222-222222222222",
      rfl, by decide, by decide, by decide⟩⟩

/-- Claim C11 (amended): a frame that decodes with an empty recipient_id is not
filtered by the read loop: the recipient is taken to be the nil identity and
`FindOrCreateChatRoom` is called for the sender and the nil identity; when that
call returns an error the store is left as it was, no message is inserted,
nothing is published, and the loop goes on with the next frame. -/
theorem readPump_frame_empty_recipient (json : JSON) (c : Client) (w : World)
    (env : FrameEnv) (message : Bytes) (msg : IncomingChatMessage) (e : DBError)
    (hdec : json.Unmarshal message = some msg)
    (hempty : msg.RecipientID = "")
    (hroom : (FindOrCreateChatRoom w.db env.room (Parse c.UserID).1 UUID.Nil).1 = .error e) :
    ReadPump.frame json c w env message =
        .ok { db := w.db
              trace := w.trace ++ [Action.FindOrCreateChatRoom (Parse c.UserID).1 UUID.Nil] }
      ∧ ∀ rest, ReadPump json c w (.message message env :: rest) =
          ReadPump json c
            { db := w.db
              trace := w.trace ++ [Action.FindOrCreateChatRoom (Parse c.UserID).1 UUID.Nil] }
            rest := by
  have hnil : (Parse msg.RecipientID).1 = UUID.Nil := by rw [hempty, Parse_empty]
  have hrun := frame_of_room_error json c w env message msg e hdec (by rw [hnil]; exact hroom)
  rw [hnil] at hrun
  exact ⟨hrun, fun rest => ReadPump_message json c w _ env message rest hrun⟩

theorem readPump_frame_empty_recipient_witness :
    ReadPump.frame demoJSON (ServeWs.client 1 userA) emptyWorld failingRoomEnv "|hi" =
        .ok { db := emptyWorld.db
              trace := emptyWorld.trace ++
                [Action.FindOrCreateChatRoom (Parse (ServeWs.client 1 userA).UserID).1
                  UUID.Nil] }
      ∧ ∀ rest, ReadPump demoJSON (ServeWs.client 1 userA) emptyWorld
            (.message "|hi" failingRoomEnv :: rest) =
          ReadPump demoJSON (ServeWs.client 1 userA)
            { db := emptyWorld.db
              trace := emptyWorld.trace ++
                [Action.FindOrCreateChatRoom (Parse (ServeWs.client 1 userA).UserID).1
                  UUID.Nil] }
            rest :=
  readPump_frame_empty_recipient demoJSON (ServeWs.client 1 userA) emptyWorld failingRoomEnv
    "|hi" { RecipientID := "", Content := "hi" } DBError.failed (by decide) rfl rfl

/-- Claim C12: for every frame whose bytes do not decode, the loop body leaves
the store and the log of calls as they were (no persistence call, no publish, no
unregister, no close of the connection) and the loop goes on to the next read. -/
theorem readPump_frame_undecodable (json : JSON) (c : Client) (w : World) (env : FrameEnv)
    (message : Bytes) (hdec : json.Unmarshal message = none) :
    ReadPump.frame json c w env message = .ok w
      ∧ ∀ rest, ReadPump json c w (.message message env :: rest) = ReadPump json c w rest := by
  have hrun : ReadPump.frame json c w env message = .ok w := by
    unfold ReadPump.frame
    simp only [hdec]
  exact ⟨hrun, fun rest => ReadPump_message json c w w env message rest hrun⟩

theorem readPump_frame_undecodable_witness :
    ReadPump.frame demoJSON (ServeWs.client 1 userA) emptyWorld demoEnv "no separator"
        = .ok emptyWorld
      ∧ ∀ rest, ReadPump demoJSON (ServeWs.client 1 userA) emptyWorld
            (.message "no separator" demoEnv :: rest)
          = ReadPump demoJSON (ServeWs.client 1 userA) emptyWorld rest :=
  readPump_frame_undecodable demoJSON (ServeWs.client 1 userA) emptyWorld demoEnv
    "no separator" (by decide)

/-- Claim C13: for every frame that decodes and for which `FindOrCreateChatRoom`
or `CreateMessage` returns an error, the loop body ends normally having made
each persistence call at most once (the room lookup once; the message insert
once, and not at all when the room lookup failed), having published nothing,
submitted no unregister and closed no connection, with table "Messages"
unchanged; the loop then goes on to the next read. -/
theorem readPump_frame_persistence_error (json : JSON) (c : Client) (w : World)
    (env : FrameEnv) (message : Bytes) (msg : IncomingChatMessage)
    (hdec : json.Unmarshal message = some msg)
    (hfail : (∃ e, (FindOrCreateChatRoom w.db env.room (Parse c.UserID).1
          (Parse msg.RecipientID).1).1 = .error e)
      ∨ ∃ room e, (FindOrCreateChatRoom w.db env.room (Parse c.UserID).1
            (Parse msg.RecipientID).1).1 = .ok room
          ∧ (CreateMessage
              (FindOrCreateChatRoom w.db env.room (Parse c.UserID).1
                (Parse msg.RecipientID).1).2
              env.msg (Parse room.Id).1 (Parse c.UserID).1 msg.Content).1 = .error e) :
    ∃ w1 acts, ReadPump.frame json c w env message = .ok w1
      ∧ w1.trace = w.trace ++ acts
      ∧ w1.db.Messages = w.db.Messages
      ∧ acts.filter Action.isPublish = []
      ∧ (acts.filter Action.isFindOrCreateChatRoom).length = 1
      ∧ (acts.filter Action.isCreateMessage).length ≤ 1
      ∧ ((∃ e, (FindOrCreateChatRoom w.db env.room (Parse c.UserID).1
            (Parse msg.RecipientID).1).1 = .error e) →
          acts.filter Action.isCreateMessage = [])
      ∧ Action.unregister c ∉ acts ∧ Action.ConnClose ∉ acts
      ∧ ∀ rest, ReadPump json c w (.message message env :: rest) = ReadPump json c w1 rest := by
  rcases hfail with ⟨e, hroom⟩ | ⟨room, e, hroom, hmsg⟩
  · have hrun := frame_of_room_error json c w env message msg e hdec hroom
    refine ⟨_, _, hrun, rfl, rfl, ?_, ?_, ?_, ?_, ?_, ?_,
      fun rest => ReadPump_message json c w _ env message rest hrun⟩
    · simp [Action.isPublish]
    · simp [Action.isFindOrCreateChatRoom]
    · simp [Action.isCreateMessage]
    · intro _; simp [Action.isCreateMessage]
    · simp
    · simp
  · have hrun := frame_of_message_error json c w env message msg room e hdec hroom hmsg
    refine ⟨_, _, hrun, rfl, FindOrCreateChatRoom_Messages _ _ _ _, ?_, ?_, ?_, ?_, ?_, ?_,
      fun rest => ReadPump_message json c w _ env message rest hrun⟩
    · simp [Action.isPublish]
    · simp [Action.isFindOrCreateChatRoom]
    · simp [Action.isCreateMessage]
    · rintro ⟨e2, he2⟩
      rw [hroom] at he2; cases he2
    · simp
    · simp

theorem readPump_frame_persistence_error_witness :
    ∃ w1 acts,
      ReadPump.frame demoJSON (ServeWs.client 1 userA) emptyWorld failingRoomEnv
          "a0eebc99-9c0b-4ef8-bb6d-6bb9bd380a11|hi" = .ok w1
      ∧ w1.trace = emptyWorld.trace ++ acts
      ∧ w1.db.Messages = emptyWorld.db.Messages
      ∧ acts.filter Action.isPublish = []
      ∧ (acts.filter Action.isFindOrCreateChatRoom).length = 1
      ∧ (acts.filter Action.isCreateMessage).length ≤ 1
      ∧ ((∃ e, (FindOrCreateChatRoom emptyWorld.db failingRoomEnv.room
            (Parse (ServeWs.client 1 userA).UserID).1
            (Parse (IncomingChatMessage.mk "a0eebc99-9c0b-4ef8-bb6d-6bb9bd380a11"
              "hi").RecipientID).1).1 = .error e) →
          acts.filter Action.isCreateMessage = [])
      ∧ Action.unregister (ServeWs.client 1 userA) ∉ acts ∧ Action.ConnClose ∉ acts
      ∧ ∀ rest, ReadPump demoJSON (ServeWs.client 1 userA) emptyWorld
            (.message "a0eebc99-9c0b-4ef8-bb6d-6bb9bd380a11|hi" failingRoomEnv :: rest)
          = ReadPump demoJSON (ServeWs.client 1 userA) w1 rest :=
  readPump_frame_persistence_error demoJSON (ServeWs.client 1 userA) emptyWorld
    failingRoomEnv "a0eebc99-9c0b-4ef8-bb6d-6bb9bd380a11|hi"
    { RecipientID := "a0eebc99-9c0b-4ef8-bb6d-6bb9bd380a11", Content := "hi" }
    (by decide) (Or.inl ⟨DBError.failed, rfl⟩)


/-- Claim C14: for every frame whose run stores a message while the publish to
the recipient fails, the loop body still ends normally: the failed publish to
the recipient appears once in the log (no retry), it is followed by exactly one
publish of the same payload to the sender, the stored message is in the store
afterwards, no unregister is submitted, and the loop goes on to the next read. -/
theorem readPump_frame_publish_failure (json : JSON) (c : Client) (w w1 : World)
    (env : FrameEnv) (message : Bytes)
    (hmar : ∀ m, (json.Marshal m).isSome = true)
    (hrun : ReadPump.frame json c w env message = .ok w1)
    (hstored : w1.db.Messages ≠ w.db.Messages)
    (hfail : env.publishRecipientErr = true) :
    ∃ (msg : IncomingChatMessage) (row : MessagesRow) (payload : Bytes) (acts : List Action),
      json.Unmarshal message = some msg
      ∧ w1.db.Messages = w.db.Messages ++ [row]
      ∧ row.content = msg.Content
      ∧ w1.trace = w.trace ++ acts
      ∧ acts.filter Action.isPublish =
          [Action.Publish (Hub.userChannel msg.RecipientID) payload true,
           Action.Publish (Hub.userChannel c.UserID) payload env.publishSenderErr]
      ∧ Action.unregister c ∉ acts ∧ Action.ConnClose ∉ acts
      ∧ ∀ rest, ReadPump json c w (.message message env :: rest) = ReadPump json c w1 rest := by
  rcases frame_cases json c w w1 env message hrun with hsame | ⟨msg, room, dbMsg, hdec, hroom, hmsg⟩
  · exact absurd hsame hstored
  · obtain ⟨payload, hpay⟩ := Option.isSome_iff_exists.mp (hmar (outgoingMsg c dbMsg))
    have hrun2 := frame_of_persisted json c w env message msg room dbMsg payload
      hdec hroom hmsg hpay
    have hw1 := hrun.symm.trans hrun2
    cases hw1
    obtain ⟨row, hrow, -, hrows, -⟩ := CreateMessage_ok _ _ _ _ _ dbMsg hmsg
    refine ⟨msg, row, payload, _, hdec, ?_, ?_, rfl, ?_, ?_, ?_,
      fun rest => ReadPump_message json c w _ env message rest hrun⟩
    · simp only [hrows, FindOrCreateChatRoom_Messages]
    · rw [hrow]
    · simp [Action.isPublish, hfail]
    · simp
    · simp

theorem readPump_frame_publish_failure_witness :
    ∃ (msg : IncomingChatMessage) (row : MessagesRow) (payload : Bytes) (acts : List Action),
      demoJSON.Unmarshal "a0eebc99-9c0b-4ef8-bb6d-6bb9bd380a11|hi" = some msg
      ∧ (CreateMessage
            (FindOrCreateChatRoom emptyWorld.db failingBusEnv.room userA userB).2
            failingBusEnv.msg failingBusEnv.room.roomID userA "hi").2.Messages
          = emptyWorld.db.Messages ++ [row]
      ∧ row.content = msg.Content
      ∧ emptyWorld.trace ++
          [Action.FindOrCreateChatRoom userA userB,
           Action.CreateMessage failingBusEnv.room.roomID userA "hi",
           Action.Publish "user:a0eebc99-9c0b-4ef8-bb6d-6bb9bd380a11"
             "33333333-3333-3333-3333-333333333333|11111111-1111-1111-1111-111111111111|hi|t1|22222222-2222-2222-2222-222222222222"
             true,
           Action.Publish "user:11111111-1111-1111-1111-111111111111"
             "33333333-3333-3333-3333-333333333333|11111111-1111-1111-1111-111111111111|hi|t1|22222222-2222-2222-2222-222222222222"
             false]
          = emptyWorld.trace ++ acts
      ∧ acts.filter Action.isPublish =
          [Action.Publish (Hub.userChannel msg.RecipientID) payload true,
           Action.Publish (Hub.userChannel (ServeWs.client 1 userA).UserID) payload
             failingBusEnv.publishSenderErr]
      ∧ Action.unregister (ServeWs.client 1 userA) ∉ acts ∧ Action.ConnClose ∉ acts
      ∧ ∀ rest, ReadPump demoJSON (ServeWs.client 1 userA) emptyWorld
            (.message "a0eebc99-9c0b-4ef8-bb6d-6bb9bd380a11|hi" failingBusEnv :: rest)
          = ReadPump demoJSON (ServeWs.client 1 userA)
              { db := (CreateMessage
                  (FindOrCreateChatRoom emptyWorld.db failingBusEnv.room userA userB).2
                  failingBusEnv.msg failingBusEnv.room.roomID userA "hi").2
                trace := emptyWorld.trace ++
                  [Action.FindOrCreateChatRoom userA userB,
                   Action.CreateMessage failingBusEnv.room.roomID userA "hi",
                   Action.Publish "user:a0eebc99-9c0b-4ef8-bb6d-6bb9bd380a11"
                     "33333333-3333-3333-3333-333333333333|11111111-1111-1111-1111-111111111111|hi|t1|22222222-2222-2222-2222-222222222222"
                     true,
                   Action.Publish "user:11111111-1111-1111-1111-111111111111"
                     "33333333-3333-3333-3333-333333333333|11111111-1111-1111-1111-111111111111|hi|t1|22222222-2222-2222-2222-222222222222"
                     false] }
              rest :=
  readPump_frame_publish_failure demoJSON (ServeWs.client 1 userA) emptyWorld
    { db := (CreateMessage
              (FindOrCreateChatRoom emptyWorld.db failingBusEnv.room userA userB).2
              failingBusEnv.msg failingBusEnv.room.roomID userA "hi").2
      trace := emptyWorld.trace ++
          [Action.FindOrCreateChatRoom userA userB,
           Action.CreateMessage failingBusEnv.room.roomID userA "hi",
           Action.Publish "user:a0eebc99-9c0b-4ef8-bb6d-6bb9bd380a11"
             "33333333-3333-3333-3333-333333333333|11111111-1111-1111-1111-111111111111|hi|t1|22222222-2222-2222-2222-222222222222"
             true,
           Action.Publish "user:11111111-1111-1111-1111-111111111111"
             "33333333-3333-3333-3333-333333333333|11111111-1111-1111-1111-111111111111|hi|t1|22222222-2222-2222-2222-222222222222"
             false] }
    failingBusEnv "a0eebc99-9c0b-4ef8-bb6d-6bb9bd380a11|hi"
    (fun _ => rfl) (by rfl) (by decide) rfl

/-- The run of the loop body on a frame that decodes, with the store and the bus
succeeding. -/
theorem frame_of_valid (json : JSON) (c : Client) (w : World) (env : FrameEnv)
    (message : Bytes) (msg : IncomingChatMessage)
    (hdec : json.Unmarshal message = some msg)
    (hmar : ∀ m, (json.Marshal m).isSome = true)
    (hdb : env.persistenceOK = true) (hbus : env.busOK = true) :
    ∃ roomID payload w1, ReadPump.frame json c w env message = .ok w1
      ∧ w1.trace = w.trace ++ frameActions c msg roomID payload := by
  simp only [FrameEnv.persistenceOK, FrameEnv.busOK, Bool.and_eq_true, Bool.not_eq_true']
    at hdb hbus
  obtain ⟨⟨⟨⟨⟨h1, h2⟩, h3⟩, h4⟩, h5⟩, h6⟩ := hdb
  obtain ⟨room, hroom⟩ := FindOrCreateChatRoom_succeeds w.db env.room (Parse c.UserID).1
    (Parse msg.RecipientID).1 h1 h2
  obtain ⟨dbMsg, hmsg⟩ := CreateMessage_succeeds
    (FindOrCreateChatRoom w.db env.room (Parse c.UserID).1 (Parse msg.RecipientID).1).2
    env.msg (Parse room.Id).1 (Parse c.UserID).1 msg.Content h3 h4 h5 h6
  obtain ⟨payload, hpay⟩ := Option.isSome_iff_exists.mp (hmar (outgoingMsg c dbMsg))
  refine ⟨(Parse room.Id).1, payload, _,
    frame_of_persisted json c w env message msg room dbMsg payload hdec hroom hmsg hpay, ?_⟩
  simp [frameActions, hbus.1, hbus.2]

/-- Claim C15: for every sequence of frames read on one session, each decoding
and each processed with the store and the bus succeeding, the loop handles them
all and is then waiting for the next read; what it appended to its log is, frame
after frame in the order read, the room lookup, the `CreateMessage` call with
the content of that frame, the publish to the recipient of that frame and the
publish of the same payload to the sender, all calls of one frame before any
call of the next. -/
theorem readPump_preserves_order (json : JSON) (c : Client) (frames : List InboundFrame)
    (hmar : ∀ m, (json.Marshal m).isSome = true)
    (hvalid : ∀ f ∈ frames, json.Unmarshal f.bytes = some f.msg
      ∧ f.env.persistenceOK = true ∧ f.env.busOK = true) (w : World) :
    ∃ (w1 : World) (blocks : List (UUID × Bytes)),
      blocks.length = frames.length
      ∧ ReadPump json c w (frames.map fun f => ReadResult.message f.bytes f.env)
          = .ok (w1, false)
      ∧ w1.trace = w.trace ++
          (List.zipWith (fun f b => frameActions c f.msg b.1 b.2) frames blocks).flatten := by
  induction frames generalizing w with
  | nil => exact ⟨w, [], rfl, rfl, by simp⟩
  | cons f rest ih =>
    obtain ⟨hdec, hdb, hbus⟩ := hvalid f (List.mem_cons_self _ _)
    obtain ⟨roomID, payload, w1, hrun, htrace⟩ :=
      frame_of_valid json c w f.env f.bytes f.msg hdec hmar hdb hbus
    obtain ⟨w2, blocks, hlen, hloop, htrace2⟩ :=
      ih (fun g hg => hvalid g (List.mem_cons_of_mem _ hg)) w1
    refine ⟨w2, (roomID, payload) :: blocks, by simp [hlen], ?_, ?_⟩
    · rw [List.map_cons, ReadPump_message json c w w1 f.env f.bytes _ hrun]
      exact hloop
    · rw [htrace2, htrace]
      simp [List.append_assoc]

/-- Two frames of user `userA` to user `userB`. -/
theorem readPump_preserves_order_witness :
    ∃ (w1 : World) (blocks : List (UUID × Bytes)),
      blocks.length =
        [InboundFrame.mk "a0eebc99-9c0b-4ef8-bb6d-6bb9bd380a11|hi" demoEnv
            { RecipientID := "a0eebc99-9c0b-4ef8-bb6d-6bb9bd380a11", Content := "hi" },
          InboundFrame.mk "a0eebc99-9c0b-4ef8-bb6d-6bb9bd380a11|yo" demoEnv
            { RecipientID := "a0eebc99-9c0b-4ef8-bb6d-6bb9bd380a11", Content := "yo" }].length
      ∧ ReadPump demoJSON (ServeWs.client 1 userA) emptyWorld
          ([InboundFrame.mk "a0eebc99-9c0b-4ef8-bb6d-6bb9bd380a11|hi" demoEnv
              { RecipientID := "a0eebc99-9c0b-4ef8-bb6d-6bb9bd380a11", Content := "hi" },
            InboundFrame.mk "a0eebc99-9c0b-4ef8-bb6d-6bb9bd380a11|yo" demoEnv
              { RecipientID := "a0eebc99-9c0b-4ef8-bb6d-6bb9bd380a11", Content := "yo" }].map
            fun f => ReadResult.message f.bytes f.env)
          = .ok (w1, false)
      ∧ w1.trace = emptyWorld.trace ++
          (List.zipWith (fun f b => frameActions (ServeWs.client 1 userA) f.msg b.1 b.2)
            [InboundFrame.mk "a0eebc99-9c0b-4ef8-bb6d-6bb9bd380a11|hi" demoEnv
              { RecipientID := "a0eebc99-9c0b-4ef8-bb6d-6bb9bd380a11", Content := "hi" },
            InboundFrame.mk "a0eebc99-9c0b-4ef8-bb6d-6bb9bd380a11|yo" demoEnv
              { RecipientID := "a0eebc99-9c0b-4ef8-bb6d-6bb9bd380a11", Content := "yo" }]
            blocks).flatten :=
  readPump_preserves_order demoJSON (ServeWs.client 1 userA) _ (fun _ => rfl) (by decide)
    emptyWorld

/-! ## Theorems: the room store -/

theorem bytesLt_asymm (a : List Nat) : ∀ b, bytesLt a b = true → bytesLt b a = false := by
  induction a with
  | nil => intro b; cases b <;> simp [bytesLt]
  | cons x xs ih =>
    intro b
    cases b with
    | nil => simp [bytesLt]
    | cons y ys =>
      simp only [bytesLt]
      intro h
      by_cases hxy : x < y
      · have hyx : ¬ y < x := by omega
        simp [hxy, hyx]
      · by_cases hyx : y < x
        · simp [hxy, hyx] at h
        · simp only [hxy, hyx, if_false] at h ⊢
          exact ih ys h

theorem bytesLt_total (a : List Nat) :
    ∀ b, bytesLt a b = false → bytesLt b a = false → a = b := by
  induction a with
  | nil => intro b; cases b <;> simp [bytesLt]
  | cons x xs ih =>
    intro b
    cases b with
    | nil => simp [bytesLt]
    | cons y ys =>
      simp only [bytesLt]
      intro h1 h2
      by_cases hxy : x < y
      · simp [hxy] at h1
      · by_cases hyx : y < x
        · simp [hyx] at h2
        · simp only [hxy, hyx, if_false] at h1 h2
          have : x = y := by omega
          rw [this, ih ys h1 h2]

/-- Identifiers whose string forms hold the same bytes are equal. -/
theorem goBytes_String_inj (a b : UUID) (h : goBytes a.String = goBytes b.String) : a = b := by
  have hp : Parse a.String = Parse b.String := by
    unfold Parse
    simp only [h]
  rw [Parse_String, Parse_String] at hp
  exact (Prod.mk.inj hp).1

theorem orderedIDs_cases (a b : UUID) :
    orderedIDs a b = (a, b) ∨ orderedIDs a b = (b, a) := by
  unfold orderedIDs
  split
  · exact Or.inr rfl
  · exact Or.inl rfl

/-- The swap makes the result independent of the order of the arguments. -/
theorem orderedIDs_comm (a b : UUID) : orderedIDs a b = orderedIDs b a := by
  unfold orderedIDs stringGt
  cases h1 : bytesLt (goBytes b.String) (goBytes a.String)
  · cases h2 : bytesLt (goBytes a.String) (goBytes b.String)
    · have hab : a = b := goBytes_String_inj a b (bytesLt_total _ _ h2 h1)
      simp [hab]
    · simp
  · have h2 := bytesLt_asymm _ _ h1
    simp [h2]

/-- After the swap the first identity is not greater than the second. -/
theorem orderedIDs_canonical (a b : UUID) :
    stringGt (orderedIDs a b).1.String (orderedIDs a b).2.String = false := by
  unfold orderedIDs
  cases h1 : stringGt a.String b.String
  · simp [h1]
  · simp only [if_true]
    exact bytesLt_asymm _ _ h1

theorem FindOrCreateChatRoom_length (db : DB) (env : RoomEnv) (a b : UUID) :
    (FindOrCreateChatRoom db env a b).2.ChatRoom.length ≤ db.ChatRoom.length + 1 := by
  rcases FindOrCreateChatRoom_cases db env a b with h1 | ⟨row, -, h1⟩ | ⟨-, h1⟩ <;>
    rw [h1] <;> simp

/-- Claim C16: for every store and every pair of identities `A`, `B`, two
successive calls of `FindOrCreateChatRoom`, each with the arguments in either
order, that both return a room return the same room (so the same room id), and
the two calls together add at most one room to the store. -/
theorem findOrCreateChatRoom_unordered_pair (db : DB) (env1 env2 : RoomEnv)
    (A B a1 b1 a2 b2 : UUID)
    (h1 : (a1 = A ∧ b1 = B) ∨ (a1 = B ∧ b1 = A))
    (h2 : (a2 = A ∧ b2 = B) ∨ (a2 = B ∧ b2 = A)) :
    (∀ room1 room2, (FindOrCreateChatRoom db env1 a1 b1).1 = .ok room1 →
        (FindOrCreateChatRoom (FindOrCreateChatRoom db env1 a1 b1).2 env2 a2 b2).1
          = .ok room2 →
        room1 = room2 ∧ room1.Id = room2.Id)
      ∧ (FindOrCreateChatRoom (FindOrCreateChatRoom db env1 a1 b1).2 env2 a2 b2).2.ChatRoom.length
          ≤ db.ChatRoom.length + 1 := by
  have ho1 : orderedIDs a1 b1 = orderedIDs A B := by
    rcases h1 with ⟨rfl, rfl⟩ | ⟨rfl, rfl⟩
    · rfl
    · exact orderedIDs_comm _ _
  have ho2 : orderedIDs a2 b2 = orderedIDs A B := by
    rcases h2 with ⟨rfl, rfl⟩ | ⟨rfl, rfl⟩
    · rfl
    · exact orderedIDs_comm _ _
  rcases FindOrCreateChatRoom_cases db env1 a1 b1 with e1 | ⟨row, hf, e1⟩ | ⟨hf, e1⟩
  · rw [e1]
    exact ⟨fun room1 room2 h => (by cases h), FindOrCreateChatRoom_length _ _ _ _⟩
  · rw [e1]
    rw [ho1] at hf
    rcases FindOrCreateChatRoom_cases db env2 a2 b2 with e2 | ⟨row2, hf2, e2⟩ | ⟨hf2, e2⟩
    · rw [e2]
      exact ⟨fun room1 room2 _ h => (by cases h), by simp⟩
    · rw [e2]
      rw [ho2, hf] at hf2
      cases hf2
      exact ⟨fun room1 room2 h3 h4 => (by cases h3; cases h4; exact ⟨rfl, rfl⟩), by simp⟩
    · rw [ho2, hf] at hf2
      cases hf2
  · rw [e1]
    rw [ho1] at hf
    have hfind : (db.ChatRoom ++ [newRoomRow env1 (orderedIDs a1 b1)]).find?
        (roomMatches (orderedIDs a2 b2)) = some (newRoomRow env1 (orderedIDs a1 b1)) := by
      rw [List.find?_append, ho2, hf, ho1]
      simp [roomMatches, newRoomRow]
    rcases FindOrCreateChatRoom_cases
        { db with ChatRoom := db.ChatRoom ++ [newRoomRow env1 (orderedIDs a1 b1)] }
        env2 a2 b2 with e2 | ⟨row2, hf2, e2⟩ | ⟨hf2, e2⟩
    · rw [e2]
      exact ⟨fun room1 room2 _ h => (by cases h), by simp⟩
    · rw [e2]
      rw [hfind] at hf2
      cases hf2
      exact ⟨fun room1 room2 h3 h4 => (by cases h3; cases h4; exact ⟨rfl, rfl⟩), by simp⟩
    · rw [hfind] at hf2
      cases hf2

theorem findOrCreateChatRoom_unordered_pair_witness :
    (∀ room1 room2,
        (FindOrCreateChatRoom emptyWorld.db demoEnv.room userA userB).1 = .ok room1 →
        (FindOrCreateChatRoom (FindOrCreateChatRoom emptyWorld.db demoEnv.room userA userB).2
          demoEnv.room userB userA).1 = .ok room2 →
        room1 = room2 ∧ room1.Id = room2.Id)
      ∧ (FindOrCreateChatRoom (FindOrCreateChatRoom emptyWorld.db demoEnv.room userA userB).2
          demoEnv.room userB userA).2.ChatRoom.length
          ≤ emptyWorld.db.ChatRoom.length + 1 :=
  findOrCreateChatRoom_unordered_pair emptyWorld.db demoEnv.room demoEnv.room
    userA userB userA userB userB userA (Or.inl ⟨rfl, rfl⟩) (Or.inr ⟨rfl, rfl⟩)


/-- The invariant of table "ChatRoom": every row is in canonical order and no
two rows hold the same unordered pair of participants. -/
theorem FindOrCreateChatRoom_invariant (db : DB) (env : RoomEnv) (a b : UUID)
    (hcan : ∀ r ∈ db.ChatRoom, r.canonical = true)
    (hpair : db.ChatRoom.Pairwise (fun r s => r.samePair s = false)) :
    (∀ r ∈ (FindOrCreateChatRoom db env a b).2.ChatRoom, r.canonical = true)
      ∧ (FindOrCreateChatRoom db env a b).2.ChatRoom.Pairwise
          (fun r s => r.samePair s = false) := by
  rcases FindOrCreateChatRoom_cases db env a b with h1 | ⟨row, -, h1⟩ | ⟨hf, h1⟩
  · rw [h1]; exact ⟨hcan, hpair⟩
  · rw [h1]; exact ⟨hcan, hpair⟩
  · rw [h1]
    have hnew : (newRoomRow env (orderedIDs a b)).canonical = true := by
      simp [ChatRoomRow.canonical, newRoomRow, orderedIDs_canonical]
    refine ⟨?_, ?_⟩
    · intro r hr
      rcases List.mem_append.mp hr with hr | hr
      · exact hcan r hr
      · rw [List.mem_singleton.mp hr]; exact hnew
    · rw [List.pairwise_append]
      refine ⟨hpair, List.pairwise_singleton _ _, ?_⟩
      intro r hr s hs
      rw [List.mem_singleton.mp hs]
      have hno := (List.find?_eq_none.mp hf) r hr
      simp only [roomMatches, decide_eq_true_eq] at hno
      simp only [ChatRoomRow.samePair, newRoomRow, decide_eq_false_iff_not, not_or]
      refine ⟨hno, ?_⟩
      rintro ⟨hr1, hr2⟩
      have hrc := hcan r hr
      simp only [ChatRoomRow.canonical, Bool.not_eq_true', hr1, hr2] at hrc
      have hoc := orderedIDs_canonical a b
      have heq : (orderedIDs a b).1 = (orderedIDs a b).2 :=
        goBytes_String_inj _ _ (bytesLt_total _ _ hrc hoc)
      exact hno ⟨hr1.trans heq.symm, hr2.trans heq⟩

theorem findOrCreateAll_invariant (calls : List RoomCall) :
    ∀ db : DB, (∀ r ∈ db.ChatRoom, r.canonical = true) →
      db.ChatRoom.Pairwise (fun r s => r.samePair s = false) →
      (∀ r ∈ (findOrCreateAll db calls).ChatRoom, r.canonical = true)
        ∧ (findOrCreateAll db calls).ChatRoom.Pairwise (fun r s => r.samePair s = false) := by
  induction calls with
  | nil => intro db h1 h2; exact ⟨h1, h2⟩
  | cons call rest ih =>
    intro db h1 h2
    obtain ⟨h3, h4⟩ := FindOrCreateChatRoom_invariant db call.env call.user1ID call.user2ID h1 h2
    exact ih _ h3 h4

/-- Claim C17: after any sequence of `FindOrCreateChatRoom` calls on the empty
store, every stored room has its participants in canonical order (the string
form of `user1` is not greater than that of `user2`) and no two stored rooms
have the same unordered pair of participants. -/
theorem room_store_invariant (calls : List RoomCall) :
    (∀ r ∈ (findOrCreateAll { ChatRoom := [], Messages := [] } calls).ChatRoom,
        stringGt r.user1.String r.user2.String = false)
      ∧ (findOrCreateAll { ChatRoom := [], Messages := [] } calls).ChatRoom.Pairwise
          (fun r s => ¬ ((r.user1 = s.user1 ∧ r.user2 = s.user2)
            ∨ (r.user1 = s.user2 ∧ r.user2 = s.user1))) := by
  obtain ⟨h1, h2⟩ := findOrCreateAll_invariant calls { ChatRoom := [], Messages := [] }
    (by simp) List.Pairwise.nil
  refine ⟨fun r hr => ?_, h2.imp ?_⟩
  · simpa [ChatRoomRow.canonical] using h1 r hr
  · intro r s h
    simpa [ChatRoomRow.samePair] using h

/-! ## Theorems: read flags -/

theorem MarkMessagesAsRead_row (db : DB) (roomID readerID : UUID) (i : Nat) (m : MessagesRow)
    (h : db.Messages[i]? = some m) :
    (MarkMessagesAsRead db false roomID readerID).2.Messages[i]? =
      some (if m.chat_room_id = roomID ∧ m.sent_from ≠ readerID ∧ m.read_status = false then
          { m with read_status := true }
        else m) := by
  simp [MarkMessagesAsRead, List.getElem?_map, h]

/-- Claim C18: after a `MarkMessagesAsRead` for a room and a reader that the
store executes, the messages are the same in number and order, every message of
that room whose sender is not the reader has its read flag true, every message
sent by the reader is unchanged, every message of another room is unchanged, and
no other column of any message and no room is changed. -/
theorem markMessagesAsRead_effect (db : DB) (roomID readerID : UUID) :
    (MarkMessagesAsRead db false roomID readerID).1 = none
      ∧ (MarkMessagesAsRead db false roomID readerID).2.ChatRoom = db.ChatRoom
      ∧ (MarkMessagesAsRead db false roomID readerID).2.Messages.length = db.Messages.length
      ∧ ∀ (i : Nat) (m : MessagesRow), db.Messages[i]? = some m →
          ∃ m1, (MarkMessagesAsRead db false roomID readerID).2.Messages[i]? = some m1
            ∧ (m.chat_room_id = roomID → m.sent_from ≠ readerID → m1.read_status = true)
            ∧ (m.sent_from = readerID → m1 = m)
            ∧ (m.chat_room_id ≠ roomID → m1 = m)
            ∧ m1.id = m.id ∧ m1.chat_room_id = m.chat_room_id ∧ m1.sent_from = m.sent_from
            ∧ m1.content = m.content ∧ m1.sent_at = m.sent_at := by
  refine ⟨rfl, rfl, by simp [MarkMessagesAsRead], ?_⟩
  intro i m hm
  refine ⟨_, MarkMessagesAsRead_row db roomID readerID i m hm, ?_, ?_, ?_, ?_⟩
  · intro h1 h2
    by_cases h3 : m.read_status = false
    · simp [h1, h2, h3]
    · simp only [Bool.not_eq_false] at h3
      simp [h3]
  · intro h1
    simp [h1]
  · intro h1
    simp [h1]
  · by_cases hc : m.chat_room_id = roomID ∧ m.sent_from ≠ readerID ∧ m.read_status = false
    · rw [if_pos hc]; exact ⟨rfl, rfl, rfl, rfl, rfl⟩
    · rw [if_neg hc]; exact ⟨rfl, rfl, rfl, rfl, rfl⟩

/-- Claim C19: `MarkMessagesAsRead` is idempotent: a second call for the same
room and reader, after one that the store executed, leaves the store as the
first call left it (whether or not the store executes the second one). -/
theorem markMessagesAsRead_idempotent (db : DB) (roomID readerID : UUID) (execErr : Bool) :
    (MarkMessagesAsRead (MarkMessagesAsRead db false roomID readerID).2 execErr
        roomID readerID).2
      = (MarkMessagesAsRead db false roomID readerID).2 := by
  cases execErr
  · simp only [MarkMessagesAsRead, Bool.false_eq_true, if_false, List.map_map]
    congr 1
    apply List.map_congr_left
    intro m _
    simp only [Function.comp]
    split <;> simp_all
  · simp [MarkMessagesAsRead]

theorem StoreOp_apply_getElem (db : DB) (op : StoreOp) (i : Nat) (m : MessagesRow)
    (h : db.Messages[i]? = some m) :
    ∃ m1, (op.apply db).Messages[i]? = some m1
      ∧ m1.id = m.id ∧ m1.chat_room_id = m.chat_room_id ∧ m1.sent_from = m.sent_from
      ∧ m1.content = m.content ∧ m1.sent_at = m.sent_at
      ∧ (m.read_status = true → m1.read_status = true) := by
  cases op with
  | FindOrCreateChatRoom env a b =>
    refine ⟨m, ?_, rfl, rfl, rfl, rfl, rfl, id⟩
    simp only [StoreOp.apply, FindOrCreateChatRoom_Messages, h]
  | CreateMessage env r s content =>
    cases hres : (CreateMessage db env r s content).1 with
    | error e =>
      refine ⟨m, ?_, rfl, rfl, rfl, rfl, rfl, id⟩
      simp only [StoreOp.apply, CreateMessage_error db env r s content e hres, h]
    | ok dbMsg =>
      obtain ⟨row, -, -, hrows, -⟩ := CreateMessage_ok db env r s content dbMsg hres
      refine ⟨m, ?_, rfl, rfl, rfl, rfl, rfl, id⟩
      have hi : i < db.Messages.length := by
        by_contra hge
        rw [List.getElem?_eq_none (by omega)] at h
        cases h
      simp only [StoreOp.apply, hrows, List.getElem?_append_left hi, h]
  | MarkMessagesAsRead execErr r u =>
    cases execErr
    · refine ⟨_, MarkMessagesAsRead_row db r u i m h, ?_⟩
      by_cases hc : m.chat_room_id = r ∧ m.sent_from ≠ u ∧ m.read_status = false
      · rw [if_pos hc]; exact ⟨rfl, rfl, rfl, rfl, rfl, fun _ => rfl⟩
      · rw [if_neg hc]; exact ⟨rfl, rfl, rfl, rfl, rfl, id⟩
    · refine ⟨m, ?_, rfl, rfl, rfl, rfl, rfl, id⟩
      simp [StoreOp.apply, MarkMessagesAsRead, h]

/-- Claim C20: every chat persistence operation (`FindOrCreateChatRoom`,
`CreateMessage`, `MarkMessagesAsRead`, failing or not) leaves every stored
message at its position with the same id, room, sender, body and timestamp, and
with its read flag still true when it was true; and a message that
`CreateMessage` returns is the row it appended, with read flag false. -/
theorem messages_immutable_but_read_flag (db : DB) :
    (∀ (op : StoreOp) (i : Nat) (m : MessagesRow), db.Messages[i]? = some m →
        ∃ m1, (op.apply db).Messages[i]? = some m1
          ∧ m1.id = m.id ∧ m1.chat_room_id = m.chat_room_id ∧ m1.sent_from = m.sent_from
          ∧ m1.content = m.content ∧ m1.sent_at = m.sent_at
          ∧ (m.read_status = true → m1.read_status = true))
      ∧ ∀ (env : MsgEnv) (roomID senderID : UUID) (content : String) (dbMsg : ChatMessage),
          (CreateMessage db env roomID senderID content).1 = .ok dbMsg →
          dbMsg.Read = false
            ∧ ∃ row, (CreateMessage db env roomID senderID content).2.Messages
                = db.Messages ++ [row]
              ∧ dbMsg = scanMessage row ∧ row.read_status = false := by
  refine ⟨fun op i m h => StoreOp_apply_getElem db op i m h, ?_⟩
  intro env r s content dbMsg hres
  obtain ⟨row, hrow, hscan, hrows, -⟩ := CreateMessage_ok db env r s content dbMsg hres
  refine ⟨?_, row, hrows, hscan, ?_⟩
  · rw [hscan, hrow]; rfl
  · rw [hrow]

/-! ## Theorems: the HTTP handlers -/

/-- Claim C21: when the caller and the room identifier parse and
`IsUserInChatRoom` answers false, `GetMessages` and `MarkRoomAsRead` both answer
403 with an error body, leave the store as it was and have called nothing but
`IsUserInChatRoom`: neither `GetMessagesForRoom` nor `MarkMessagesAsRead` is
called. -/
theorem non_participant_is_rejected (db : DB) (env : HandlerEnv) (us roomIDStr : String)
    (limitQ offsetQ : Option String)
    (hu : (Parse us).2 = true) (hr : (Parse roomIDStr).2 = true)
    (hno : IsUserInChatRoom db env.authErr (Parse roomIDStr).1 (Parse us).1 = .ok false) :
    GetMessages db env (some us) roomIDStr limitQ offsetQ =
        { response := ⟨403, .error "Access denied to this chat room"⟩, db := db,
          calls := [RepoCall.IsUserInChatRoom (Parse roomIDStr).1 (Parse us).1] }
      ∧ MarkRoomAsRead db env (some us) roomIDStr =
        { response := ⟨403, .error "Access denied to this chat room"⟩, db := db,
          calls := [RepoCall.IsUserInChatRoom (Parse roomIDStr).1 (Parse us).1] } := by
  constructor
  · simp only [GetMessages, hu, hr, hno, Bool.not_true, Bool.false_eq_true, if_false]
  · simp only [MarkRoomAsRead, hu, hr, hno, Bool.not_true, Bool.false_eq_true, if_false]

theorem non_participant_is_rejected_witness :
    GetMessages demoDB okHandlerEnv (some userA.String) userA.String (some "1") none =
        { response := ⟨403, .error "Access denied to this chat room"⟩, db := demoDB,
          calls := [RepoCall.IsUserInChatRoom (Parse userA.String).1 (Parse userA.String).1] }
      ∧ MarkRoomAsRead demoDB okHandlerEnv (some userA.String) userA.String =
        { response := ⟨403, .error "Access denied to this chat room"⟩, db := demoDB,
          calls := [RepoCall.IsUserInChatRoom (Parse userA.String).1 (Parse userA.String).1] } :=
  non_participant_is_rejected demoDB okHandlerEnv userA.String userA.String (some "1") none
    (by rw [Parse_String]) (by rw [Parse_String]) (by rw [Parse_String]; rfl)

/-- Claim C28 (fails on the code): user `userA` asks for a page of one message
of room `roomR`, which holds two unread messages of `userB`. The page returned
is the message `one` with its read flag as fetched (false), and afterwards both
messages are marked read: `two`, which is outside the returned page, has lost
its unread state as well. -/
theorem getMessages_marks_messages_outside_page :
    (GetMessages demoDB okHandlerEnv (some userA.String) roomR.String (some "1")
        none).response.status = 200
      ∧ (∃ page, (GetMessages demoDB okHandlerEnv (some userA.String) roomR.String (some "1")
            none).response.body = Body.messages page
          ∧ page.map (fun m => (m.Message, m.Read)) = [("one", false)])
      ∧ demoDB.Messages.map (fun m => (m.content, m.read_status))
          = [("one", false), ("two", false)]
      ∧ (GetMessages demoDB okHandlerEnv (some userA.String) roomR.String (some "1")
          none).db.Messages.map (fun m => (m.content, m.read_status))
          = [("one", true), ("two", true)] := by
  refine ⟨by decide, ⟨_, rfl, by decide⟩, by decide, by decide⟩

/-- Claim C29 (fails on the code): in the store `demoDB` room `roomR` has the
participants `userA` and `userB`. When `userA` sends a message in `roomR`
through `SendMessage`, the recipient identity the handler determines is the
string form of the room identifier, not `userB`, and determining it has added a
second room to the store, between `userA` and the room identifier. -/
theorem sendMessage_takes_room_for_recipient :
    ∃ res, SendMessage demoDB demoSendEnv (some userA.String) roomR.String = .ok res
      ∧ res.response.status = 200
      ∧ res.recipientID = some "22222222-2222-2222-2222-222222222222"
      ∧ res.recipientID ≠ some userB.String
      ∧ demoDB.ChatRoom.map (fun r => (r.id, r.user1, r.user2)) = [(roomR, userA, userB)]
      ∧ res.db.ChatRoom.map (fun r => (r.id, r.user1, r.user2))
          = [(roomR, userA, userB), (UUID.ofList (List.replicate 16 0x44), userA, roomR)] := by
  refine ⟨_, rfl, by decide, by decide, by decide, by decide, by decide⟩

/-- Claim C30: for every pair of query strings, present or absent, the limit
handed to `GetMessagesForRoom` lies between 1 and 100, is the value `Atoi`
returns for the limit string when that value lies between 1 and 100 and is 50
otherwise, and the offset handed over is the value `Atoi` returns for the offset
string when it is not negative and 0 otherwise; absent strings give 50 and 0,
and these two values are the arguments of every `GetMessagesForRoom` call the
handler makes. -/
theorem pagination_clamps (limitQ offsetQ : Option String) :
    1 ≤ (pagination limitQ offsetQ).1 ∧ (pagination limitQ offsetQ).1 ≤ 100
      ∧ (1 ≤ (Atoi (limitQ.getD "50")).1 ∧ (Atoi (limitQ.getD "50")).1 ≤ 100 →
          (pagination limitQ offsetQ).1 = (Atoi (limitQ.getD "50")).1)
      ∧ (¬ (1 ≤ (Atoi (limitQ.getD "50")).1 ∧ (Atoi (limitQ.getD "50")).1 ≤ 100) →
          (pagination limitQ offsetQ).1 = 50)
      ∧ (0 ≤ (Atoi (offsetQ.getD "0")).1 →
          (pagination limitQ offsetQ).2 = (Atoi (offsetQ.getD "0")).1)
      ∧ ((Atoi (offsetQ.getD "0")).1 < 0 → (pagination limitQ offsetQ).2 = 0)
      ∧ pagination none none = (50, 0)
      ∧ ∀ (db : DB) (env : HandlerEnv) (userIDStr : Option String) (roomIDStr : String)
          (r : UUID) (l o : Int),
          RepoCall.GetMessagesForRoom r l o
              ∈ (GetMessages db env userIDStr roomIDStr limitQ offsetQ).calls →
            l = (pagination limitQ offsetQ).1 ∧ o = (pagination limitQ offsetQ).2 := by
  refine ⟨?_, ?_, ?_, ?_, ?_, ?_, by decide, ?_⟩
  · simp only [pagination]; split <;> omega
  · simp only [pagination]; split <;> omega
  · intro h; simp only [pagination]; split <;> omega
  · intro h; simp only [pagination]; split <;> omega
  · intro h; simp only [pagination]; split <;> omega
  · intro h; simp only [pagination]; split <;> omega
  · intro db env userIDStr roomIDStr r l o hmem
    unfold GetMessages at hmem
    split at hmem
    · simp at hmem
    · split at hmem
      · simp at hmem
      · split at hmem
        · simp at hmem
        · dsimp only at hmem
          split at hmem
          · simp at hmem
          · simp at hmem
          · split at hmem
            · simp at hmem
              exact ⟨hmem.2.1, hmem.2.2⟩
            · simp at hmem
              exact ⟨hmem.2.1, hmem.2.2⟩

/-! ## Theorems: the relay loop, the write loop and the end of the read loop -/

/-- On a channel that has not been closed the relay queues the payload at the
tail when fewer than 256 payloads are buffered, drops it when the buffer is
full, and goes on with the next payload in both cases. -/
theorem trySend_open (ch : Chan) (payload : Bytes) (rest : List Bytes)
    (hopen : ch.closed = false) :
    (ch.buf.length < 256 →
        ch.trySend payload = .ok { ch with buf := ch.buf ++ [payload] }
          ∧ listenToRedis ch (payload :: rest)
              = listenToRedis { ch with buf := ch.buf ++ [payload] } rest)
      ∧ (256 ≤ ch.buf.length →
        ch.trySend payload = .ok ch
          ∧ listenToRedis ch (payload :: rest) = listenToRedis ch rest) := by
  constructor
  · intro h
    have hs : ch.trySend payload = .ok { ch with buf := ch.buf ++ [payload] } := by
      simp [Chan.trySend, hopen, sendCapacity, h]
    exact ⟨hs, by simp [listenToRedis, hs]⟩
  · intro h
    have hs : ch.trySend payload = .ok ch := by
      have : ¬ ch.buf.length < 256 := by omega
      simp [Chan.trySend, hopen, sendCapacity, this]
    exact ⟨hs, by simp [listenToRedis, hs]⟩

/-- Claim C22 (fails on the code): the session registers and its unregister is
processed by the hub, which closes the outbound channel; the relay loop of the
session then subscribes, and the first payload the subscription yields finds the
channel closed with an empty buffer: the send panics, the payload is neither
queued nor dropped and the loop does not proceed. -/
theorem relay_panics_after_unregister :
    ∃ h1, NewHub.Run [.register sessionOne, .unregister sessionOne] = .ok h1
      ∧ ((h1.subscribe sessionOne).Send sessionOne).closed = true
      ∧ ((h1.subscribe sessionOne).Send sessionOne).buf.length < sendCapacity
      ∧ (h1.subscribe sessionOne).Sub sessionOne = PubSub.active
      ∧ ((h1.subscribe sessionOne).Send sessionOne).trySend "x"
          = .error Panic.sendOnClosedChannel
      ∧ listenToRedis ((h1.subscribe sessionOne).Send sessionOne) ["x", "y"]
          = .error Panic.sendOnClosedChannel := by
  refine ⟨_, rfl, by decide, by decide, by decide, rfl, rfl⟩

theorem WritePump_cons_succeeds (ev : WriteEvent) (rest : List WriteEvent)
    (h : ev.succeeds = true) :
    (WritePump.step ev).2 = false
      ∧ WritePump (ev :: rest) =
          ((WritePump.step ev).1 ++ (WritePump rest).1, (WritePump rest).2)
      ∧ textFrames ((WritePump.step ev).1 ++ (WritePump rest).1)
          = receivedPayloads [ev] ++ textFrames (WritePump rest).1
      ∧ ConnOp.Close ∉ (WritePump.step ev).1 ∧ ConnOp.CloseMessage ∉ (WritePump.step ev).1 := by
  cases ev with
  | recv message now e1 e2 =>
    simp only [WriteEvent.succeeds, Bool.and_eq_true, Bool.not_eq_true'] at h
    simp [WritePump, WritePump.step, h.1, h.2, textFrames, receivedPayloads]
  | closed now => simp [WriteEvent.succeeds] at h
  | tick now e =>
    simp only [WriteEvent.succeeds, Bool.not_eq_true'] at h
    simp [WritePump, WritePump.step, h, textFrames, receivedPayloads]

theorem receivedPayloads_cons (ev : WriteEvent) (rest : List WriteEvent) :
    receivedPayloads (ev :: rest) = receivedPayloads [ev] ++ receivedPayloads rest := by
  cases ev <;> simp [receivedPayloads]

/-- While every write succeeds the loop keeps running and the text frames it
has written are the payloads received, in order. -/
theorem WritePump_running (evs : List WriteEvent) (h : ∀ ev ∈ evs, ev.succeeds = true) :
    (WritePump evs).2 = false
      ∧ textFrames (WritePump evs).1 = receivedPayloads evs
      ∧ ConnOp.Close ∉ (WritePump evs).1 ∧ ConnOp.CloseMessage ∉ (WritePump evs).1 := by
  induction evs with
  | nil => simp [WritePump, textFrames, receivedPayloads]
  | cons ev rest ih =>
    obtain ⟨h1, h2, h3, h4, h5⟩ := WritePump_cons_succeeds ev rest (h ev (List.mem_cons_self _ _))
    obtain ⟨i1, i2, i3, i4⟩ := ih (fun e he => h e (List.mem_cons_of_mem _ he))
    rw [h2]
    refine ⟨i1, ?_, ?_, ?_⟩
    · rw [h3, i2, ← receivedPayloads_cons]
    · simp [h4, i3]
    · simp [h5, i4]

theorem WritePump_append (pre rest : List WriteEvent) (h : ∀ ev ∈ pre, ev.succeeds = true) :
    WritePump (pre ++ rest) = ((WritePump pre).1 ++ (WritePump rest).1, (WritePump rest).2) := by
  induction pre with
  | nil => simp [WritePump]
  | cons ev pre ih =>
    obtain ⟨h1, h2, -⟩ := WritePump_cons_succeeds ev (pre ++ rest) (h ev (List.mem_cons_self _ _))
    obtain ⟨-, h3, -⟩ := WritePump_cons_succeeds ev pre (h ev (List.mem_cons_self _ _))
    rw [List.cons_append, h2, ih (fun e he => h e (List.mem_cons_of_mem _ he)), h3]
    simp [List.append_assoc]

/-- Claim C23: (1) as long as every write and ping succeeds the write loop keeps
running and the text frames it has written are exactly the payloads it received
from the channel, one frame per payload in the order received, and it has
written no close frame; (2) when it then finds the channel closed it sets the
write deadline, writes one close frame, closes the connection and returns,
whatever would have come next being ignored; (3) when instead a write of a frame
or a ping fails, it returns, whatever would have come next being ignored. -/
theorem writePump_behaviour :
    (∀ evs : List WriteEvent, (∀ ev ∈ evs, ev.succeeds = true) →
        (WritePump evs).2 = false
          ∧ textFrames (WritePump evs).1 = receivedPayloads evs
          ∧ ConnOp.CloseMessage ∉ (WritePump evs).1)
      ∧ (∀ (pre rest : List WriteEvent) (now : Nat), (∀ ev ∈ pre, ev.succeeds = true) →
          WritePump (pre ++ WriteEvent.closed now :: rest) =
            ((WritePump pre).1 ++
              [ConnOp.SetWriteDeadline (now + writeWait), ConnOp.CloseMessage, ConnOp.Close],
             true)
          ∧ textFrames (WritePump (pre ++ WriteEvent.closed now :: rest)).1
              = receivedPayloads pre)
      ∧ (∀ (pre rest : List WriteEvent) (ev : WriteEvent),
          (∀ e ∈ pre, e.succeeds = true) → ev.fails = true →
          (WritePump (pre ++ ev :: rest)).2 = true
            ∧ WritePump (pre ++ ev :: rest) = WritePump (pre ++ [ev])
            ∧ textFrames (WritePump (pre ++ ev :: rest)).1 = receivedPayloads pre) := by
  refine ⟨?_, ?_, ?_⟩
  · intro evs h
    obtain ⟨h1, h2, -, h4⟩ := WritePump_running evs h
    exact ⟨h1, h2, h4⟩
  · intro pre rest now h
    obtain ⟨-, h2, -, -⟩ := WritePump_running pre h
    have hstep : WritePump (WriteEvent.closed now :: rest) =
        ([ConnOp.SetWriteDeadline (now + writeWait), ConnOp.CloseMessage, ConnOp.Close],
          true) := by
      simp [WritePump, WritePump.step]
    have hall : WritePump (pre ++ WriteEvent.closed now :: rest) =
        ((WritePump pre).1 ++
          [ConnOp.SetWriteDeadline (now + writeWait), ConnOp.CloseMessage, ConnOp.Close],
         true) := by
      rw [WritePump_append pre _ h, hstep]
    refine ⟨hall, ?_⟩
    rw [hall]
    have happ : ∀ (a b : List ConnOp), textFrames (a ++ b) = textFrames a ++ textFrames b := by
      intro a b
      induction a with
      | nil => rfl
      | cons x xs ih =>
        cases x with
        | TextMessage p f => cases f <;> simp [textFrames, ih]
        | _ => simp [textFrames, ih]
    simp [happ, h2, textFrames]
  · intro pre rest ev h hf
    obtain ⟨-, h2, -, -⟩ := WritePump_running pre h
    have happ : ∀ (a b : List ConnOp), textFrames (a ++ b) = textFrames a ++ textFrames b := by
      intro a b
      induction a with
      | nil => rfl
      | cons x xs ih =>
        cases x with
        | TextMessage p f => cases f <;> simp [textFrames, ih]
        | _ => simp [textFrames, ih]
    have hret : (WritePump.step ev).2 = true ∧ textFrames (WritePump.step ev).1 = [] := by
      cases ev with
      | recv message now e1 e2 =>
        simp only [WriteEvent.fails, Bool.or_eq_true] at hf
        cases e1 <;> cases e2 <;> simp_all [WritePump.step, textFrames]
      | closed now => simp [WriteEvent.fails] at hf
      | tick now e =>
        simp only [WriteEvent.fails] at hf
        simp [WritePump.step, hf, textFrames]
    have hcons : ∀ tl, WritePump (ev :: tl) = ((WritePump.step ev).1 ++ [ConnOp.Close], true) := by
      intro tl
      simp [WritePump, hret.1]
    refine ⟨?_, ?_, ?_⟩
    · rw [WritePump_append pre _ h, hcons]
    · rw [WritePump_append pre _ h, WritePump_append pre _ h, hcons, hcons]
    · rw [WritePump_append pre _ h, hcons]
      simp [happ, h2, hret.2, textFrames]

/-- The loop body always ends normally, and what it appends to the log holds
neither an unregister nor a close of the connection. -/
theorem frame_total (json : JSON) (c : Client) (w : World) (env : FrameEnv) (message : Bytes) :
    ∃ w1 acts, ReadPump.frame json c w env message = .ok w1
      ∧ w1.trace = w.trace ++ acts ∧ ∀ a ∈ acts, a.isTeardown = false := by
  cases hdec : json.Unmarshal message with
  | none =>
    refine ⟨w, [], ?_, by simp, by simp⟩
    unfold ReadPump.frame
    simp only [hdec]
  | some msg =>
    cases hroom : (FindOrCreateChatRoom w.db env.room (Parse c.UserID).1
        (Parse msg.RecipientID).1).1 with
    | error e =>
      refine ⟨_, _, frame_of_room_error json c w env message msg e hdec hroom, rfl, ?_⟩
      simp [Action.isTeardown]
    | ok room =>
      cases hmsg : (CreateMessage
          (FindOrCreateChatRoom w.db env.room (Parse c.UserID).1 (Parse msg.RecipientID).1).2
          env.msg (Parse room.Id).1 (Parse c.UserID).1 msg.Content).1 with
      | error e =>
        refine ⟨_, _, frame_of_message_error json c w env message msg room e hdec hroom hmsg,
          rfl, ?_⟩
        simp [Action.isTeardown]
      | ok dbMsg =>
        cases hmar : json.Marshal (outgoingMsg c dbMsg) with
        | some payload =>
          refine ⟨_, _, frame_of_persisted json c w env message msg room dbMsg payload
            hdec hroom hmsg hmar, rfl, ?_⟩
          simp [Action.isTeardown]
        | none =>
          have hmp := (MustParse_room _ _ _ _ room hroom).1
          refine ⟨World.mk (CreateMessage
              (FindOrCreateChatRoom w.db env.room (Parse c.UserID).1
                (Parse msg.RecipientID).1).2
              env.msg (Parse room.Id).1 (Parse c.UserID).1 msg.Content).2
            (w.trace ++
              [Action.FindOrCreateChatRoom (Parse c.UserID).1 (Parse msg.RecipientID).1,
               Action.CreateMessage (Parse room.Id).1 (Parse c.UserID).1 msg.Content]),
            _, ?_, rfl, ?_⟩
          · unfold ReadPump.frame
            simp only [hdec, hroom, hmp, hmsg, hmar, List.append_assoc, List.singleton_append]
          · simp [Action.isTeardown]

/-- The read loop on frames only: it handles them all, is then waiting for the
next read, and has appended neither an unregister nor a close of the connection
to its log. -/
theorem ReadPump_frames (json : JSON) (c : Client) (frames : List (Bytes × FrameEnv))
    (w : World) :
    ∃ w1 acts, ReadPump json c w (frames.map fun f => ReadResult.message f.1 f.2)
        = .ok (w1, false)
      ∧ w1.trace = w.trace ++ acts ∧ (∀ a ∈ acts, a.isTeardown = false)
      ∧ ∀ rest, ReadPump json c w
          ((frames.map fun f => ReadResult.message f.1 f.2) ++ rest) = ReadPump json c w1 rest := by
  induction frames generalizing w with
  | nil => exact ⟨w, [], rfl, by simp, by simp, fun rest => rfl⟩
  | cons f frames ih =>
    obtain ⟨w1, acts1, hrun, htr, hno⟩ := frame_total json c w f.2 f.1
    obtain ⟨w2, acts2, hloop, htr2, hno2, hrest⟩ := ih w1
    refine ⟨w2, acts1 ++ acts2, ?_, ?_, ?_, ?_⟩
    · rw [List.map_cons, ReadPump_message json c w w1 f.2 f.1 _ hrun]
      exact hloop
    · rw [htr2, htr, List.append_assoc]
    · intro a ha
      rcases List.mem_append.mp ha with ha | ha
      · exact hno a ha
      · exact hno2 a ha
    · intro rest
      rw [List.map_cons, List.cons_append, ReadPump_message json c w w1 f.2 f.1 _ hrun]
      exact hrest rest

/-- Claim C24: whatever frames the read loop has processed, when the next read
returns an error the loop ends and the method returns, having appended to its
log one unregister of its own session followed by the close of the connection,
and nothing of what could be read afterwards; up to that read error (that is,
while it is still processing frames) it has submitted no unregister at all. -/
theorem readPump_unregisters_once_on_read_error (json : JSON) (c : Client)
    (frames : List (Bytes × FrameEnv)) (rest : List ReadResult) (w : World) :
    ∃ w0 w1 acts,
      ReadPump json c w (frames.map fun f => ReadResult.message f.1 f.2) = .ok (w0, false)
      ∧ w0.trace = w.trace ++ acts
      ∧ (∀ a ∈ acts, a.isTeardown = false)
      ∧ ReadPump json c w
          ((frames.map fun f => ReadResult.message f.1 f.2) ++ ReadResult.err :: rest)
          = .ok (w1, true)
      ∧ w1.trace = w.trace ++ acts ++ [Action.unregister c, Action.ConnClose]
      ∧ w1.db = w0.db
      ∧ ((acts ++ [Action.unregister c, Action.ConnClose]).filter
          (fun a => decide (a = Action.unregister c))).length = 1 := by
  obtain ⟨w0, acts, hloop, htr, hno, hrest⟩ := ReadPump_frames json c frames w
  refine ⟨w0, { w0 with trace := w0.trace ++ [Action.unregister c, Action.ConnClose] }, acts,
    hloop, htr, hno, ?_, ?_, rfl, ?_⟩
  · rw [hrest]
    rfl
  · simp [htr]
  · have hnone : acts.filter (fun a => decide (a = Action.unregister c)) = [] := by
      rw [List.filter_eq_nil_iff]
      intro a ha
      have := hno a ha
      intro hd
      simp only [decide_eq_true_eq] at hd
      rw [hd] at this
      simp [Action.isTeardown] at this
    rw [List.filter_append, hnone]
    simp

/-- Claim C25: for every hub state in which the unregister of session `s` can be
processed (no entry for its identity, or its channel not yet closed), the hub
loop processes it and the registry then has no entry for the identity of `s`. -/
theorem unregister_clears_identity (h : Hub) (s : Client)
    (hok : h.clients s.UserID = none ∨ (h.Send s).closed = false) :
    ∃ h1, h.runStep (.unregister s) = .ok h1 ∧ h1.clients s.UserID = none := by
  cases hc : h.clients s.UserID with
  | none => exact ⟨h, runStep_unregister_absent h s hc, hc⟩
  | some x =>
    rcases hok with hn | ho
    · rw [hc] at hn; cases hn
    · exact ⟨_, runStep_unregister_present h s x hc ho, by simp [mapDelete]⟩

theorem unregister_clears_identity_witness :
    ∃ h1, ({ NewHub with clients := mapSet NewHub.clients "u" sessionTwo } : Hub).runStep
        (.unregister sessionOne) = .ok h1 ∧ h1.clients sessionOne.UserID = none :=
  unregister_clears_identity _ sessionOne (Or.inr rfl)

/-- Claim C26: `pingPeriod` is 54 seconds, nine tenths of `pongWait` (60
seconds), hence positive and strictly shorter than the read-deadline window;
`writeWait` is 10 seconds; and every iteration of the write loop first sets the
write deadline to the current time plus `writeWait` and then performs at most
one write (text frame, close frame or ping), which is its only deadline
setting. -/
theorem keepalive_constants :
    pingPeriod = 54 * Second ∧ pongWait = 60 * Second ∧ writeWait = 10 * Second
      ∧ 0 < pingPeriod ∧ pingPeriod < pongWait ∧ pingPeriod * 10 = pongWait * 9
      ∧ ∀ ev : WriteEvent, ∃ writes,
          (WritePump.step ev).1 = ConnOp.SetWriteDeadline (ev.now + writeWait) :: writes
            ∧ writes.length ≤ 1
            ∧ ∀ op ∈ writes, ∀ d, op ≠ ConnOp.SetWriteDeadline d := by
  refine ⟨by decide, rfl, rfl, by decide, by decide, by decide, ?_⟩
  intro ev
  cases ev with
  | recv message now e1 e2 =>
    cases e1 <;> cases e2 <;> simp [WritePump.step, WriteEvent.now]
  | closed now => simp [WritePump.step, WriteEvent.now]
  | tick now e => simp [WritePump.step, WriteEvent.now]

end Sportsin
